import Mathlib

/-!
Verification development for the blog-publishing orchestration layer.

The definitions below are a shallow embedding of the TypeScript sources:
  - src/src/lib/services/blog-converter.ts   (generateSlug, convertJsonToMarkdown,
    validateBlogInput)
  - src/src/lib/services/json-blog-service.ts (its private generateSlug)
  - src/src/lib/services/git-service.ts       (ServerlessBlogPublisher)
  - src/src/types/content-collections.d.ts    (GitHubFileService, concatenated there)
  - src/src/app/api/publish-blog/route.ts     (POST handler)
  - src/src/app/api/webhook/github/route.ts   (webhook POST handler)

JavaScript strings are modelled as Lean `String`/`List Char`; provider (GitHub)
calls are modelled by an oracle record whose fields give each provider
operation's outcome, and every publisher function additionally returns the
list of provider calls it performed, in order.
-/

/-! ## Character classes used by the JS regexes -/

/-- JS regex `\w` (word character): `[A-Za-z0-9_]`. -/
def isWordChar (c : Char) : Bool :=
  c.isAlpha || c.isDigit || c = '_'

/-- JS regex `\s` (whitespace), restricted to the ASCII whitespace characters. -/
def isJsSpace (c : Char) : Bool :=
  c = ' ' || c = '\t' || c = '\n' || c = '\r' || c = '\x0b' || c = '\x0c'

/-- Replace each maximal run of characters satisfying `p` by a single `'-'`.
The boolean flag records whether the previous character was part of such a run;
this models one global `replace(/X+/g, '-')` pass. -/
def collapseRunsAux (p : Char → Bool) (inRun : Bool) : List Char → List Char
  | [] => []
  | c :: cs =>
    if p c then
      if inRun then collapseRunsAux p true cs
      else '-' :: collapseRunsAux p true cs
    else c :: collapseRunsAux p false cs

/-- `s.replace(/X+/g, '-')` where `X` is the class decided by `p`. -/
def collapseRuns (p : Char → Bool) (l : List Char) : List Char :=
  collapseRunsAux p false l

/-- JS `String.prototype.trim()` on a character list. -/
def jsTrimList (l : List Char) : List Char :=
  ((l.dropWhile isJsSpace).reverse.dropWhile isJsSpace).reverse

/-- JS `String.prototype.trim()`. -/
def jsTrim (s : String) : String :=
  ⟨jsTrimList s.data⟩

/-! ## generateSlug (blog-converter.ts)

Source pipeline: `toLowerCase()`, then `replace` of the class
`[^\w\s-]` with the empty string (remove special characters), then
`replace` of `\s+` runs with `'-'`, then `replace` of hyphen runs
with a single `'-'`, then `trim()`. -/

def generateSlug (title : String) : String :=
  ⟨jsTrimList
    (collapseRuns (fun c => c = '-')
      (collapseRuns isJsSpace
        ((title.data.map Char.toLower).filter
          (fun c => isWordChar c || isJsSpace c || c = '-'))))⟩

/-! ## generateSlug (json-blog-service.ts)

Source pipeline: `toLowerCase()`, then `trim()`, then `replace` of the
class `[^\w\s-]` with the empty string (remove special characters), then
`replace` of `[\s_-]+` runs with `'-'` (spaces and underscores to
hyphens), then `replace` of leading and trailing hyphen runs with the
empty string. -/

def jsonGenerateSlug (title : String) : String :=
  ⟨(((collapseRuns (fun c => isJsSpace c || c = '_' || c = '-')
      ((jsTrimList (title.data.map Char.toLower)).filter
        (fun c => isWordChar c || isJsSpace c || c = '-'))).dropWhile
          (fun c => c = '-')).reverse.dropWhile (fun c => c = '-')).reverse⟩

/-- The slug transform as the claim words it: lowercase, strip non-word
characters, collapse every run of whitespace or underscores to a single
hyphen.  Written from the claim's words, to be compared with the code's
`generateSlug`. -/
def slugClaimed (title : String) : String :=
  ⟨collapseRuns (fun c => isJsSpace c || c = '_')
    ((title.data.map Char.toLower).filter
      (fun c => isWordChar c || isJsSpace c || c = '-'))⟩

/-! ## BlogInput and convertJsonToMarkdown (blog-converter.ts) -/

structure BlogInput where
  title : String
  description : String
  author : String
  date : String
  /-- `published?: boolean` — optional field. -/
  published : Option Bool
  content : String
deriving DecidableEq

/-- JS template interpolation of a boolean. -/
def boolToString (b : Bool) : String :=
  if b then "true" else "false"

/-- `convertJsonToMarkdown` from blog-converter.ts.  The source builds the
frontmatter as `[...].join('\n')` over the eight array elements (the last
being the empty string) and appends the body; the join is inlined here as
concatenation with an explicit `"\n"` between consecutive elements. -/
def convertJsonToMarkdown (blog : BlogInput) : String :=
  let frontmatter :=
    "---" ++ "\n" ++
    ("title: \"" ++ blog.title ++ "\"") ++ "\n" ++
    ("description: \"" ++ blog.description ++ "\"") ++ "\n" ++
    ("author: \"" ++ blog.author ++ "\"") ++ "\n" ++
    ("date: \"" ++ blog.date ++ "\"") ++ "\n" ++
    ("published: " ++ boolToString (blog.published.getD true)) ++ "\n" ++
    "---" ++ "\n" ++
    ""
  frontmatter ++ blog.content

/-- The serializer as the claim words it: frontmatter, closing `---` line,
then a blank line, followed by the raw body.  Written from the claim's words,
to be compared with the code's `convertJsonToMarkdown`. -/
def convertJsonToMarkdownClaimed (blog : BlogInput) : String :=
  "---" ++ "\n" ++
  ("title: \"" ++ blog.title ++ "\"") ++ "\n" ++
  ("description: \"" ++ blog.description ++ "\"") ++ "\n" ++
  ("author: \"" ++ blog.author ++ "\"") ++ "\n" ++
  ("date: \"" ++ blog.date ++ "\"") ++ "\n" ++
  ("published: " ++ boolToString (blog.published.getD true)) ++ "\n" ++
  "---" ++ "\n" ++
  "\n" ++
  blog.content

/-! ## Frontmatter parser

Modelled from the spec: the front-end's own frontmatter parser (the
content-collections pipeline) is not under src/, so the parser is modelled
from the spec's glossary entry — a frontmatter document is a YAML key-value
block prefixed and suffixed with `---` lines at the top of the document,
carrying post metadata; the remainder is the body.  Values are either
double-quoted strings or bare booleans, as the serializer emits them. -/

/-- Split a character list into its lines, separating on `'\n'`
(like `String.splitOn "\n"`: splitting the empty list yields one empty line).
-/
def splitNl : List Char → List (List Char)
  | [] => [[]]
  | c :: cs =>
    match splitNl cs with
    | [] => [[]]
    | l :: ls => if c = '\n' then [] :: l :: ls else (c :: l) :: ls

/-- Inverse of `splitNl`: re-join lines with `'\n'`. -/
def unlines : List (List Char) → List Char
  | [] => []
  | [l] => l
  | l :: ls => l ++ '\n' :: unlines ls

/-- Break a list at the first occurrence of `c`; `none` if `c` is absent. -/
def breakOnChar (c : Char) : List Char → Option (List Char × List Char)
  | [] => none
  | x :: xs =>
    if x = c then some ([], xs)
    else (breakOnChar c xs).map (fun p => (x :: p.1, p.2))

/-- A parsed frontmatter value: a double-quoted string or a bare boolean. -/
inductive FMValue where
  | str (s : List Char)
  | bool (b : Bool)
deriving DecidableEq

/-- Parse a frontmatter value: `true`, `false`, or a double-quoted string
with no interior double quote. -/
def parseFMValue (v : List Char) : Option FMValue :=
  if v = "true".data then some (.bool true)
  else if v = "false".data then some (.bool false)
  else
    match v with
    | '"' :: rest =>
      if rest.getLast? = some '"' ∧ '"' ∉ rest.dropLast then
        some (.str rest.dropLast)
      else none
    | _ => none

/-- Parse one `key: value` line. -/
def parseKVLine (l : List Char) : Option (List Char × FMValue) :=
  match breakOnChar ':' l with
  | none => none
  | some (key, rest) =>
    match rest with
    | ' ' :: v =>
      match parseFMValue v with
      | none => none
      | some fv => some (key, fv)
    | _ => none

/-- Parse `key: value` lines up to the closing `---` line; returns the pairs
and the remaining lines. -/
def parseFMLines : List (List Char) → Option (List (List Char × FMValue) × List (List Char))
  | [] => none
  | l :: ls =>
    if l = "---".data then some ([], ls)
    else
      match parseKVLine l with
      | none => none
      | some kv =>
        match parseFMLines ls with
        | none => none
        | some (kvs, rest) => some (kv :: kvs, rest)

/-- Parse a frontmatter document: an opening `---` line, `key: value` lines,
a closing `---` line, and the body (everything after the closing line's
newline). -/
def parseFrontmatter (doc : List Char) : Option (List (List Char × FMValue) × List Char) :=
  match splitNl doc with
  | [] => none
  | l :: ls =>
    if l = "---".data then
      match parseFMLines ls with
      | none => none
      | some (kvs, rest) => some (kvs, unlines rest)
    else none

/-! ## GitHub provider model

`Oracle` gives the outcome of each provider operation (the Octokit calls made
by `GitHubFileService` and `GitHubService`); `GHCall` records one performed
call.  Service-method error wrapping (`Failed to ...: msg`) is inlined at the
call sites, exactly as each service method wraps its caught error. -/

structure CreateBranchResult where
  branchName : String
  sha : String
deriving DecidableEq

structure PRInfo where
  number : Nat
  url : String
  title : String
deriving DecidableEq

structure MergeInfo where
  merged : Bool
  sha : String
  message : String
deriving DecidableEq

structure TreeEntry where
  path : String
  mode : String
  sha : String
deriving DecidableEq

structure FileContent where
  path : String
  content : String
  message : String
deriving DecidableEq

structure Oracle where
  createBranch : String → String → Except String CreateBranchResult
  createOrUpdateFile : String → String → String → String → Except String Unit
  getRef : String → Except String String
  getCommit : String → Except String String
  createBlob : String → Except String String
  createTree : List TreeEntry → String → Except String String
  createCommit : String → String → List String → Except String String
  updateRef : String → String → Except String Unit
  createPullRequest : String → String → String → String → Except String PRInfo
  addLabels : Nat → List String → Except String Unit
  addReviewers : Nat → List String → Except String Unit
  mergePullRequest : Nat → String → String → Except String MergeInfo
  fileExists : String → String → Bool
  listFiles : String → String → Except String (List String)
  deleteBranch : String → Except String Unit

inductive GHCall where
  | createBranch (branchName baseBranch : String)
  | createOrUpdateFile (path content message branch : String)
  | getRef (branch : String)
  | getCommit (commitSha : String)
  | createBlob (content : String)
  | createTree (entries : List TreeEntry) (baseTree : String)
  | createCommit (message treeSha : String) (parents : List String)
  | updateRef (branch sha : String)
  | createPullRequest (title body head base : String)
  | addLabels (prNumber : Nat) (labels : List String)
  | addReviewers (prNumber : Nat) (reviewers : List String)
  | mergePullRequest (prNumber : Nat) (commitTitle commitMessage : String)
  | fileExists (path branch : String)
  | listFiles (path branch : String)
  | deleteBranch (branchName : String)
deriving DecidableEq

/-- Whether the oracle answers this call without an error. -/
def callOk (env : Oracle) : GHCall → Bool
  | .createBranch b base => (env.createBranch b base).isOk
  | .createOrUpdateFile p c m b => (env.createOrUpdateFile p c m b).isOk
  | .getRef b => (env.getRef b).isOk
  | .getCommit s => (env.getCommit s).isOk
  | .createBlob c => (env.createBlob c).isOk
  | .createTree es bt => (env.createTree es bt).isOk
  | .createCommit m t ps => (env.createCommit m t ps).isOk
  | .updateRef b s => (env.updateRef b s).isOk
  | .createPullRequest t b h base => (env.createPullRequest t b h base).isOk
  | .addLabels n ls => (env.addLabels n ls).isOk
  | .addReviewers n rs => (env.addReviewers n rs).isOk
  | .mergePullRequest n ct cm => (env.mergePullRequest n ct cm).isOk
  | .fileExists _ _ => true
  | .listFiles p b => (env.listFiles p b).isOk
  | .deleteBranch b => (env.deleteBranch b).isOk

/-! ## ServerlessBlogPublisher (git-service.ts) -/

structure PublishOptions where
  reviewers : Option (List String) := none
  labels : Option (List String) := none
  baseBranch : Option String := none
  autoMerge : Option Bool := none
deriving DecidableEq

structure PublishResult where
  success : Bool
  message : String
  slug : Option String := none
  branchName : Option String := none
  prUrl : Option String := none
  prNumber : Option Nat := none
  merged : Option Bool := none
  mergeSha : Option String := none
  error : Option String := none
deriving DecidableEq

/-- A failure result, as produced by the catch blocks of `publishBlog` and
`publishMultipleBlogsInSinglePR`. -/
def mkFailResult (failMessage e : String) : PublishResult :=
  { success := false, message := failMessage, error := some e }

/-- PR body for a single blog post (`generatePRBody`), a trimmed template. -/
def generatePRBody (blog : BlogInput) (slug : String) : String :=
  jsTrim ("\n## 📝 New Blog Post\n\n**Title:** " ++ blog.title ++
    "  \n**Author:** " ++ blog.author ++
    "  \n**Date:** " ++ blog.date ++
    "  \n**Slug:** " ++ slug ++
    "  \n**Published:** " ++ boolToString (blog.published.getD true) ++
    "\n\n### Description\n" ++ blog.description ++
    "\n\n### Preview\nThis PR adds a new blog post to the content collection. The post will be available at `/blog/" ++
    slug ++ "` once merged.\n\n### Checklist\n- [ ] Content reviewed for accuracy\n- [ ] Grammar and spelling checked\n- [ ] Links verified\n- [ ] Images optimized (if any)\n- [ ] SEO metadata is complete\n\n---\n*This PR was automatically generated by the Blog Publishing System*\n    ")

/-- Numbered list entries of `generateBatchPRBody` (mapIdx with index + 1). -/
def batchListLines (i : Nat) : List BlogInput → List String
  | [] => []
  | b :: bs =>
    (Nat.repr i ++ ". **" ++ b.title ++ "** by " ++ b.author ++ " - `/blog/" ++
      generateSlug b.title ++ "`") :: batchListLines (i + 1) bs

/-- PR body for a batch of blog posts (`generateBatchPRBody`). -/
def generateBatchPRBody (blogs : List BlogInput) : String :=
  jsTrim ("\n## 📚 Batch Blog Post Publishing\n\nThis PR adds **" ++
    Nat.repr blogs.length ++
    "** new blog post(s) to the content collection.\n\n### Posts Included:\n" ++
    String.intercalate "\n" (batchListLines 1 blogs) ++
    "\n\n### Checklist\n- [ ] All content reviewed for accuracy\n- [ ] Grammar and spelling checked\n- [ ] Links verified\n- [ ] Images optimized (if any)\n- [ ] SEO metadata is complete\n\n---\n*This PR was automatically generated by the Blog Publishing System*\n    ")

/-- The auto-merge step shared by both publish paths: if `options?.autoMerge`
is truthy, call the merge; a merge failure is caught (only logged in the
source) and the result still reports success with `merged := false`. -/
def mergeStage (env : Oracle) (options : Option PublishOptions) (pr : PRInfo)
    (commitTitle commitMessage : String)
    (success : Option MergeInfo → PublishResult) : PublishResult × List GHCall :=
  if (options.bind PublishOptions.autoMerge).getD false then
    match env.mergePullRequest pr.number commitTitle commitMessage with
    | .error _ => (success none, [.mergePullRequest pr.number commitTitle commitMessage])
    | .ok m => (success (some m), [.mergePullRequest pr.number commitTitle commitMessage])
  else (success none, [])

/-- The reviewers step: `if (options?.reviewers && options.reviewers.length > 0)`. -/
def reviewersStage (env : Oracle) (options : Option PublishOptions) (pr : PRInfo)
    (commitTitle commitMessage failMessage : String)
    (success : Option MergeInfo → PublishResult) : PublishResult × List GHCall :=
  match options.bind PublishOptions.reviewers with
  | some rs =>
    if 0 < rs.length then
      match env.addReviewers pr.number rs with
      | .error e =>
        (mkFailResult failMessage ("Failed to add reviewers: " ++ e),
         [.addReviewers pr.number rs])
      | .ok _ =>
        let (r, t) := mergeStage env options pr commitTitle commitMessage success
        (r, .addReviewers pr.number rs :: t)
    else mergeStage env options pr commitTitle commitMessage success
  | none => mergeStage env options pr commitTitle commitMessage success

/-- The labels step: `if (options?.labels && options.labels.length > 0)`. -/
def labelsStage (env : Oracle) (options : Option PublishOptions) (pr : PRInfo)
    (commitTitle commitMessage failMessage : String)
    (success : Option MergeInfo → PublishResult) : PublishResult × List GHCall :=
  match options.bind PublishOptions.labels with
  | some ls =>
    if 0 < ls.length then
      match env.addLabels pr.number ls with
      | .error e =>
        (mkFailResult failMessage ("Failed to add labels: " ++ e),
         [.addLabels pr.number ls])
      | .ok _ =>
        let (r, t) := reviewersStage env options pr commitTitle commitMessage failMessage success
        (r, .addLabels pr.number ls :: t)
    else reviewersStage env options pr commitTitle commitMessage failMessage success
  | none => reviewersStage env options pr commitTitle commitMessage failMessage success

/-- The base branch resolved by both publish paths. -/
def resolveBaseBranch (options : Option PublishOptions) : String :=
  match options.bind PublishOptions.baseBranch with
  | some s => if s = "" then "main" else s
  | none => "main"

/-- The branch name generated by `publishBlog`. -/
def publishBranchName (blog : BlogInput) (timestamp : Nat) : String :=
  "blog/" ++ generateSlug blog.title ++ "-" ++ Nat.repr timestamp

/-- The success result built by `publishBlog` (the source's final return
object). -/
def publishBlogSuccess (blog : BlogInput) (ts : Nat) (pr : PRInfo)
    (m : Option MergeInfo) : PublishResult :=
  { success := true,
    message := if m.isSome then "Blog post published and auto-merged successfully"
               else "Blog post published successfully",
    slug := some (generateSlug blog.title),
    branchName := some (publishBranchName blog ts),
    prUrl := some pr.url, prNumber := some pr.number,
    merged := some m.isSome, mergeSha := m.map MergeInfo.sha }

/-- The success result built by `publishMultipleBlogsInSinglePR`. -/
def batchSuccess (blogs : List BlogInput) (ts : Nat) (pr : PRInfo)
    (m : Option MergeInfo) : PublishResult :=
  { success := true,
    message := if m.isSome then
        "Successfully published and auto-merged " ++ Nat.repr blogs.length ++ " blog posts"
      else "Successfully published " ++ Nat.repr blogs.length ++ " blog posts",
    branchName := some ("blog/batch-" ++ Nat.repr ts),
    prUrl := some pr.url, prNumber := some pr.number,
    merged := some m.isSome, mergeSha := m.map MergeInfo.sha }

/-- `ServerlessBlogPublisher.publishBlog`.  `timestamp` stands for the
`Date.now()` reading of this invocation. -/
def publishBlog (env : Oracle) (contentPath : String) (blog : BlogInput)
    (options : Option PublishOptions) (timestamp : Nat) : PublishResult × List GHCall :=
  let slug := generateSlug blog.title
  let filePath := contentPath ++ "/" ++ (slug ++ ".md")
  let markdownContent := convertJsonToMarkdown blog
  let branchName := publishBranchName blog timestamp
  let baseBranch := resolveBaseBranch options
  match env.createBranch branchName baseBranch with
  | .error e =>
    (mkFailResult "Failed to publish blog post" ("Failed to create branch: " ++ e),
     [.createBranch branchName baseBranch])
  | .ok _ =>
    match env.createOrUpdateFile filePath markdownContent
        ("feat: Add new blog post \"" ++ blog.title ++ "\"") branchName with
    | .error e =>
      (mkFailResult "Failed to publish blog post" ("Failed to create/update file: " ++ e),
       [.createBranch branchName baseBranch,
        .createOrUpdateFile filePath markdownContent
          ("feat: Add new blog post \"" ++ blog.title ++ "\"") branchName])
    | .ok _ =>
      match env.createPullRequest ("📝 New Blog Post: " ++ blog.title)
          (generatePRBody blog slug) branchName baseBranch with
      | .error e =>
        (mkFailResult "Failed to publish blog post" ("Failed to create pull request: " ++ e),
         [.createBranch branchName baseBranch,
          .createOrUpdateFile filePath markdownContent
            ("feat: Add new blog post \"" ++ blog.title ++ "\"") branchName,
          .createPullRequest ("📝 New Blog Post: " ++ blog.title)
            (generatePRBody blog slug) branchName baseBranch])
      | .ok pr =>
        let (r, t) := labelsStage env options pr
          ("Auto-merge: " ++ blog.title)
          ("Automatically merged blog post: " ++ blog.title)
          "Failed to publish blog post"
          (publishBlogSuccess blog timestamp pr)
        (r, .createBranch branchName baseBranch ::
            .createOrUpdateFile filePath markdownContent
              ("feat: Add new blog post \"" ++ blog.title ++ "\"") branchName ::
            .createPullRequest ("📝 New Blog Post: " ++ blog.title)
              (generatePRBody blog slug) branchName baseBranch :: t)

/-- The blob-upload fan-out inside `GitHubFileService.createMultipleFiles`
(`Promise.all` over `files`), modelled in file order; the first rejection
aborts the whole batch.  Returns the tree entries built from the blob SHAs. -/
def createBlobsLoop (env : Oracle) : List FileContent → Except String (List TreeEntry) × List GHCall
  | [] => (.ok [], [])
  | f :: fs =>
    match env.createBlob f.content with
    | .error e => (.error e, [.createBlob f.content])
    | .ok sha =>
      match createBlobsLoop env fs with
      | (.error e, t) => (.error e, .createBlob f.content :: t)
      | (.ok entries, t) =>
        (.ok ({ path := f.path, mode := "100644", sha := sha } :: entries),
         .createBlob f.content :: t)

/-- `GitHubFileService.createMultipleFiles`: get the branch head, get its
tree, create one blob per file, create a tree, a commit, and update the
branch ref; any caught error is wrapped once. -/
def createMultipleFiles (env : Oracle) (files : List FileContent)
    (branch commitMessage : String) : Except String Unit × List GHCall :=
  match env.getRef branch with
  | .error e => (.error ("Failed to create multiple files: " ++ e), [.getRef branch])
  | .ok currentCommitSha =>
    match env.getCommit currentCommitSha with
    | .error e =>
      (.error ("Failed to create multiple files: " ++ e),
       [.getRef branch, .getCommit currentCommitSha])
    | .ok currentTreeSha =>
      match createBlobsLoop env files with
      | (.error e, t) =>
        (.error ("Failed to create multiple files: " ++ e),
         .getRef branch :: .getCommit currentCommitSha :: t)
      | (.ok tree, t) =>
        match env.createTree tree currentTreeSha with
        | .error e =>
          (.error ("Failed to create multiple files: " ++ e),
           .getRef branch :: .getCommit currentCommitSha :: t ++ [.createTree tree currentTreeSha])
        | .ok newTreeSha =>
          match env.createCommit commitMessage newTreeSha [currentCommitSha] with
          | .error e =>
            (.error ("Failed to create multiple files: " ++ e),
             .getRef branch :: .getCommit currentCommitSha :: t ++
               [.createTree tree currentTreeSha,
                .createCommit commitMessage newTreeSha [currentCommitSha]])
          | .ok newCommitSha =>
            match env.updateRef branch newCommitSha with
            | .error e =>
              (.error ("Failed to create multiple files: " ++ e),
               .getRef branch :: .getCommit currentCommitSha :: t ++
                 [.createTree tree currentTreeSha,
                  .createCommit commitMessage newTreeSha [currentCommitSha],
                  .updateRef branch newCommitSha])
            | .ok _ =>
              (.ok (),
               .getRef branch :: .getCommit currentCommitSha :: t ++
                 [.createTree tree currentTreeSha,
                  .createCommit commitMessage newTreeSha [currentCommitSha],
                  .updateRef branch newCommitSha])

/-- The per-post files prepared by `publishMultipleBlogsInSinglePR`. -/
def batchFiles (contentPath : String) (blogs : List BlogInput) : List FileContent :=
  blogs.map (fun blog =>
    { path := contentPath ++ "/" ++ (generateSlug blog.title ++ ".md"),
      content := convertJsonToMarkdown blog,
      message := "Add " ++ blog.title : FileContent })

/-- `ServerlessBlogPublisher.publishMultipleBlogsInSinglePR`. -/
def publishMultipleBlogsInSinglePR (env : Oracle) (contentPath : String)
    (blogs : List BlogInput) (prTitle : String) (options : Option PublishOptions)
    (timestamp : Nat) : PublishResult × List GHCall :=
  let branchName := "blog/batch-" ++ Nat.repr timestamp
  let baseBranch := resolveBaseBranch options
  match env.createBranch branchName baseBranch with
  | .error e =>
    (mkFailResult "Failed to publish batch of blog posts" ("Failed to create branch: " ++ e),
     [.createBranch branchName baseBranch])
  | .ok _ =>
    let files := batchFiles contentPath blogs
    match createMultipleFiles env files branchName
        ("feat: Add " ++ Nat.repr blogs.length ++ " new blog post(s)") with
    | (.error e, t2) =>
      (mkFailResult "Failed to publish batch of blog posts" e,
       .createBranch branchName baseBranch :: t2)
    | (.ok _, t2) =>
      -- `prTitle || defaultTitle`: the empty string is falsy in JS.
      let resolvedTitle :=
        if prTitle = "" then "📝 New Blog Posts (" ++ Nat.repr blogs.length ++ ")"
        else prTitle
      match env.createPullRequest resolvedTitle (generateBatchPRBody blogs)
          branchName baseBranch with
      | .error e =>
        (mkFailResult "Failed to publish batch of blog posts"
          ("Failed to create pull request: " ++ e),
         .createBranch branchName baseBranch :: t2 ++
           [.createPullRequest resolvedTitle (generateBatchPRBody blogs) branchName baseBranch])
      | .ok pr =>
        let (r, t3) := labelsStage env options pr
          ("Auto-merge: " ++ prTitle)
          ("Automatically merged batch of " ++ Nat.repr blogs.length ++ " blog posts: " ++ prTitle)
          "Failed to publish batch of blog posts"
          (batchSuccess blogs timestamp pr)
        (r, .createBranch branchName baseBranch :: t2 ++
            .createPullRequest resolvedTitle (generateBatchPRBody blogs) branchName baseBranch :: t3)

/-- The loop body of `ServerlessBlogPublisher.publishMultipleBlogs`: each
blog is published with its own `Date.now()` reading `tsf i` (the source also
sleeps 1000ms between posts, which has no observable effect here); the loop
never stops early — every post is attempted regardless of earlier failures.
-/
def publishMultipleBlogsGo (env : Oracle) (contentPath : String)
    (options : Option PublishOptions) (tsf : Nat → Nat) (i : Nat) :
    List BlogInput → List PublishResult × List GHCall
  | [] => ([], [])
  | b :: bs =>
    let (r, t) := publishBlog env contentPath b options (tsf i)
    let (rs, ts) := publishMultipleBlogsGo env contentPath options tsf (i + 1) bs
    (r :: rs, t ++ ts)

/-- `ServerlessBlogPublisher.publishMultipleBlogs` (one branch + PR per post). -/
def publishMultipleBlogs (env : Oracle) (contentPath : String)
    (blogs : List BlogInput) (options : Option PublishOptions)
    (tsf : Nat → Nat) : List PublishResult × List GHCall :=
  publishMultipleBlogsGo env contentPath options tsf 0 blogs

/-! ## GitHub webhook handler (src/src/app/api/webhook/github/route.ts) -/

/-- `p` is a prefix of `s` (JS `String.prototype.startsWith`). -/
def strStartsWith (s p : String) : Bool :=
  p.data.isPrefixOf s.data

structure PRLabel where
  name : String
deriving DecidableEq

structure WebhookPR where
  number : Nat
  title : String
  headRef : String
  baseRef : String
  userLogin : String
  labels : List PRLabel
deriving DecidableEq

structure RepoInfo where
  name : String
  ownerLogin : String
deriving DecidableEq

structure WebhookPayload where
  action : String
  pullRequest : Option WebhookPR
  repository : Option RepoInfo
deriving DecidableEq

/-- Environment of the webhook handler: token presence and the outcomes of
its three Octokit calls.  `pullsGet` yields the `mergeable` field of the PR
data (`none` models JSON `null`). -/
structure WebhookEnv where
  hasToken : Bool
  pullsGet : Nat → Except String (Option Bool)
  pullsMerge : Nat → Except String String
  createComment : Nat → String → Except String Unit

inductive WebhookOutcome where
  /-- 500: GitHub token not configured. -/
  | noToken
  /-- 200: `action` is not `opened`. -/
  | notRelevant
  /-- 400: no `pull_request` in the payload. -/
  | noPRData
  /-- 200: the auto-merge criteria are not met. -/
  | criteriaNotMet
  /-- 200: the PR data reports `mergeable === false`. -/
  | notMergeable
  /-- 200: the PR was merged (and the comment posted). -/
  | merged (sha : String)
  /-- 500: a thrown error was caught. -/
  | caught (msg : String)
deriving DecidableEq

/-- `hasAutoMergeLabel` of the webhook handler. -/
def hasAutoMergeLabel (pr : WebhookPR) : Bool :=
  pr.labels.any (fun label =>
    label.name = "auto-merge" || label.name = "automated" || label.name = "auto-publish")

/-- `shouldAutoMerge` of the webhook handler: blog-post title marker, and
(auto-merge label or automated author), and base branch `main`. -/
def shouldAutoMerge (pr : WebhookPR) : Bool :=
  strStartsWith pr.title "📝 New Blog Post:" &&
  (hasAutoMergeLabel pr || pr.userLogin = "kkasaei") &&
  pr.baseRef = "main"

/-- The webhook `POST` handler.  The second component records whether the
merge call (`octokit.rest.pulls.merge`) was invoked. -/
def handleGithubWebhook (env : WebhookEnv) (payload : WebhookPayload) :
    WebhookOutcome × Bool :=
  if !env.hasToken then (.noToken, false)
  else if payload.action != "opened" then (.notRelevant, false)
  else
    match payload.pullRequest with
    | none => (.noPRData, false)
    | some pr =>
      if !shouldAutoMerge pr then (.criteriaNotMet, false)
      else
        -- `payload.repository!` — a missing repository throws a TypeError.
        match payload.repository with
        | none =>
          (.caught "Cannot read properties of undefined (reading 'owner')", false)
        | some _ =>
          match env.pullsGet pr.number with
          | .error e => (.caught e, false)
          | .ok mergeable =>
            if mergeable = some false then (.notMergeable, false)
            else
              match env.pullsMerge pr.number with
              | .error e => (.caught e, true)
              | .ok sha =>
                match env.createComment pr.number sha with
                | .error e => (.caught e, true)
                | .ok _ => (.merged sha, true)

/-! ## JS value model for the publish route (validateBlogInput and POST) -/

/-- A JavaScript value as seen by the route handler (parsed JSON plus
`undefined`). -/
inductive JsValue where
  | null
  | undefJs
  | bool (b : Bool)
  | num (n : Int)
  | str (s : String)
  | arr (elems : List JsValue)
  | obj (fields : List (String × JsValue))

/-- JS property access `v[name]`: throws a TypeError on `null`/`undefined`,
returns `undefined` for absent properties and non-object primitives. -/
def getField (v : JsValue) (name : String) : Except String JsValue :=
  match v with
  | .null => .error ("Cannot read properties of null (reading '" ++ name ++ "')")
  | .undefJs => .error ("Cannot read properties of undefined (reading '" ++ name ++ "')")
  | .obj fields => .ok ((fields.lookup name).getD .undefJs)
  | _ => .ok .undefJs

/-- JS `typeof`. -/
def typeOf : JsValue → String
  | .null => "object"
  | .undefJs => "undefined"
  | .bool _ => "boolean"
  | .num _ => "number"
  | .str _ => "string"
  | .arr _ => "object"
  | .obj _ => "object"

/-- JS truthiness. -/
def truthy : JsValue → Bool
  | .null => false
  | .undefJs => false
  | .bool b => b
  | .num n => n != 0
  | .str s => s != ""
  | .arr _ => true
  | .obj _ => true

/-- `validateBlogInput` from blog-converter.ts: a conjunction of `typeof`
checks over `blog.title`, `blog.description`, `blog.author`, `blog.date`,
`blog.content`, `blog.published`, evaluated left to right with `&&`
short-circuiting; reading a field of `null`/`undefined` throws. -/
def validateBlogInput (blog : JsValue) : Except String Bool := do
  let t ← getField blog "title"
  if typeOf t != "string" then return false
  let d ← getField blog "description"
  if typeOf d != "string" then return false
  let a ← getField blog "author"
  if typeOf a != "string" then return false
  let dt ← getField blog "date"
  if typeOf dt != "string" then return false
  let c ← getField blog "content"
  if typeOf c != "string" then return false
  let p ← getField blog "published"
  return (p matches .undefJs) || typeOf p == "boolean"

/-- Total field read used once the receiver is known to be an object. -/
def jsGet (v : JsValue) (name : String) : JsValue :=
  match getField v name with
  | .ok x => x
  | .error _ => .undefJs

/-- String content of a JS value (empty for non-strings); used only on
fields that validation has already checked. -/
def jsStr : JsValue → String
  | .str s => s
  | _ => ""

/-- Build a `BlogInput` from a validated element of `body.blogs`. -/
def toBlogInput (v : JsValue) : BlogInput :=
  { title := jsStr (jsGet v "title"),
    description := jsStr (jsGet v "description"),
    author := jsStr (jsGet v "author"),
    date := jsStr (jsGet v "date"),
    published :=
      match jsGet v "published" with
      | .bool b => some b
      | _ => none,
    content := jsStr (jsGet v "content") }

/-- Read `body.options` into the publisher's options.  Fields of unexpected
runtime type are treated as absent (they fail the source's truthiness or
`length > 0` guards in the same way). -/
def toPublishOptions (v : JsValue) : Option PublishOptions :=
  match v with
  | .obj _ =>
    some
      { reviewers :=
          match jsGet v "reviewers" with
          | .arr es => some (es.map jsStr)
          | _ => none,
        labels :=
          match jsGet v "labels" with
          | .arr es => some (es.map jsStr)
          | _ => none,
        baseBranch :=
          match jsGet v "baseBranch" with
          | .str s => some s
          | _ => none,
        autoMerge :=
          match jsGet v "autoMerge" with
          | .bool b => some b
          | _ => none }
  | _ => none

/-- The route's per-element validation loop; `.ok (some i)` is the first
invalid index, a thrown TypeError propagates. -/
def validateLoop : List JsValue → Nat → Except String (Option Nat)
  | [], _ => .ok none
  | b :: bs, i =>
    match validateBlogInput b with
    | .error e => .error e
    | .ok true => validateLoop bs (i + 1)
    | .ok false => .ok (some i)

/-- The three environment variables read by the route; JS falsiness makes
the empty string count as missing. -/
structure EnvConfig where
  githubToken : Option String
  githubOwner : Option String
  githubRepo : Option String

def envPresent : Option String → Bool
  | some s => s != ""
  | none => false

def configured (cfg : EnvConfig) : Bool :=
  envPresent cfg.githubToken && envPresent cfg.githubOwner && envPresent cfg.githubRepo

/-- Shape of the route's JSON responses. -/
inductive RouteBody where
  /-- 500: missing environment variables. -/
  | envError
  /-- 400: `blogs` array missing, not an array, or empty. -/
  | invalidRequest
  /-- 400: invalid blog data at an index. -/
  | invalidBlogAt (i : Nat)
  /-- batch mode response (`result` plus summary). -/
  | batch (result : PublishResult) (total : Nat) (defaultMode : Bool)
  /-- separate mode response (`results` plus summary). -/
  | separate (results : List PublishResult) (succeeded failed : Nat)
  /-- 500: a thrown error reached the outer catch. -/
  | caught (msg : String)
deriving DecidableEq

structure RouteResponse where
  status : Nat
  body : RouteBody
deriving DecidableEq

/-- JS strict equality `body.mode === 'separate'`: true only for the exact
string. -/
def isSeparateMode (v : JsValue) : Bool :=
  match v with
  | .str s => s = "separate"
  | _ => false

/-- The `POST` handler of src/src/app/api/publish-blog/route.ts.  `tsf i` is
the `Date.now()` reading of the i-th separate-mode publication and `batchTs`
the one of a batch publication. -/
def publishBlogPOST (env : Oracle) (cfg : EnvConfig) (body : JsValue)
    (tsf : Nat → Nat) (batchTs : Nat) : RouteResponse × List GHCall :=
  if !configured cfg then ({ status := 500, body := .envError }, [])
  else
    match getField body "blogs" with
    | .error e => ({ status := 500, body := .caught e }, [])
    | .ok blogsVal =>
      match blogsVal with
      | .arr es =>
        if es.length = 0 then ({ status := 400, body := .invalidRequest }, [])
        else
          match validateLoop es 0 with
          | .error e => ({ status := 500, body := .caught e }, [])
          | .ok (some i) => ({ status := 400, body := .invalidBlogAt i }, [])
          | .ok none =>
            let blogs := es.map toBlogInput
            let options := toPublishOptions (jsGet body "options")
            -- `body.mode === 'separate' ? 'separate' : 'batch'`
            if isSeparateMode (jsGet body "mode") then
              let (results, t) := publishMultipleBlogs env "content/posts" blogs options tsf
              let allSucceeded := results.all PublishResult.success
              ({ status := if allSucceeded then 200 else 207,
                 body := .separate results
                   (results.filter PublishResult.success).length
                   (results.filter (fun r => !r.success)).length }, t)
            else
              let batchTitle :=
                match jsGet body "batchTitle" with
                | .str s =>
                  if s = "" then "New Blog Posts (" ++ Nat.repr es.length ++ ")" else s
                | _ => "New Blog Posts (" ++ Nat.repr es.length ++ ")"
              let (result, t) :=
                publishMultipleBlogsInSinglePR env "content/posts" blogs batchTitle options batchTs
              ({ status := if result.success then 200 else 500,
                 body := .batch result es.length (!truthy (jsGet body "mode")) }, t)
      | _ => ({ status := 400, body := .invalidRequest }, [])

/-! ## Injectivity of the decimal rendering used in branch names -/

/-- Decimal value of `acc`'s digits followed by the digits of `n`. -/
def pushDigits (acc n : Nat) : Nat :=
  if n < 10 then acc * 10 + n
  else pushDigits acc (n / 10) * 10 + n % 10
termination_by n
decreasing_by exact Nat.div_lt_self (by omega) (by omega)

/-- One step of reading a decimal string back into a number. -/
def decStep (acc : Nat) (c : Char) : Nat := acc * 10 + (c.toNat - 48)

theorem digitChar_decStep (acc d : Nat) (h : d < 10) :
    decStep acc (Nat.digitChar d) = acc * 10 + d := by
  have : ∀ e, e < 10 → (Nat.digitChar e).toNat - 48 = e := by decide
  simp [decStep, this d h]

theorem pushDigits_ge (acc n : Nat) (h : ¬ n < 10) :
    pushDigits acc n = pushDigits acc (n / 10) * 10 + n % 10 := by
  rw [pushDigits, if_neg h]

theorem toDigitsCore_foldl (fuel : Nat) : ∀ n ds acc, n < fuel →
    (Nat.toDigitsCore 10 fuel n ds).foldl decStep acc = ds.foldl decStep (pushDigits acc n) := by
  induction fuel with
  | zero => intro n ds acc h; omega
  | succ fuel ih =>
    intro n ds acc h
    rw [Nat.toDigitsCore]
    by_cases h10 : n / 10 = 0
    · have hn : n < 10 := by omega
      simp only [h10, if_pos rfl, List.foldl]
      rw [digitChar_decStep _ _ (Nat.mod_lt n (by omega)), pushDigits]
      rw [if_pos hn, Nat.mod_eq_of_lt hn]
    · have hge : ¬ n < 10 := by omega
      have hlt : n / 10 < fuel := by
        have h1 : n / 10 < n := Nat.div_lt_self (by omega) (by omega)
        omega
      rw [if_neg h10, ih (n / 10) (Nat.digitChar (n % 10) :: ds) acc hlt]
      simp only [List.foldl]
      rw [digitChar_decStep _ _ (Nat.mod_lt n (by omega))]
      conv_rhs => rw [pushDigits_ge acc n hge]

theorem pushDigits_zero (n : Nat) : pushDigits 0 n = n := by
  induction n using Nat.strong_induction_on with
  | _ n ih =>
    rw [pushDigits]
    by_cases h : n < 10
    · simp [h]
    · rw [if_neg h, ih (n / 10) (Nat.div_lt_self (by omega) (by omega))]
      omega

theorem decode_natRepr (n : Nat) : (Nat.repr n).data.foldl decStep 0 = n := by
  show (Nat.toDigits 10 n).foldl decStep 0 = n
  rw [Nat.toDigits, toDigitsCore_foldl (n + 1) n [] 0 (Nat.lt_succ_self n)]
  simp [pushDigits_zero]

theorem natRepr_injective {a b : Nat} (h : Nat.repr a = Nat.repr b) : a = b := by
  have := congrArg (fun s => String.data s |>.foldl decStep 0) h
  simpa [decode_natRepr] using this

/-! ## Parser lemmas -/

theorem splitNl_ne_nil (l : List Char) : splitNl l ≠ [] := by
  cases l with
  | nil => simp [splitNl]
  | cons c cs =>
    rw [splitNl]
    cases splitNl cs with
    | nil => simp
    | cons x xs => by_cases h : c = '\n' <;> simp [h]

theorem splitNl_cons_append (a b : List Char) (h : '\n' ∉ a) :
    splitNl (a ++ '\n' :: b) = a :: splitNl b := by
  induction a with
  | nil =>
    simp only [List.nil_append]
    rw [splitNl]
    rcases hb : splitNl b with _ | ⟨x, xs⟩
    · exact absurd hb (splitNl_ne_nil b)
    · simp
  | cons c cs ih =>
    have hc : c ≠ '\n' := fun hh => h (hh ▸ List.mem_cons_self c cs)
    have hcs : '\n' ∉ cs := fun hh => h (List.mem_cons_of_mem c hh)
    simp only [List.cons_append]
    rw [splitNl, ih hcs]
    simp [hc]

theorem unlines_splitNl (l : List Char) : unlines (splitNl l) = l := by
  induction l with
  | nil => rfl
  | cons c cs ih =>
    rcases h : splitNl cs with _ | ⟨x, xs⟩
    · exact absurd h (splitNl_ne_nil cs)
    · rw [h] at ih
      rw [splitNl, h]
      by_cases hc : c = '\n'
      · subst hc
        simp only [if_pos rfl]
        cases xs with
        | nil => simpa [unlines] using ih
        | cons y ys => simpa [unlines] using ih
      · simp only [if_neg hc]
        cases xs with
        | nil => simpa [unlines] using congrArg (c :: ·) ih
        | cons y ys => simpa [unlines] using congrArg (c :: ·) ih

theorem breakOnChar_append (c : Char) (a b : List Char) (h : c ∉ a) :
    breakOnChar c (a ++ c :: b) = some (a, b) := by
  induction a with
  | nil => simp [breakOnChar]
  | cons x xs ih =>
    have hx : x ≠ c := fun hh => h (hh ▸ List.mem_cons_self x xs)
    have hxs : c ∉ xs := fun hh => h (List.mem_cons_of_mem x hh)
    simp only [List.cons_append]
    rw [breakOnChar]
    rw [if_neg hx, ih hxs]
    rfl

theorem parseFMValue_quoted (s : List Char) (h : '"' ∉ s) :
    parseFMValue ('"' :: (s ++ ['"'])) = some (.str s) := by
  rw [parseFMValue]
  rw [if_neg, if_neg]
  · simp [List.getLast?_concat, List.dropLast_concat, h]
  · intro hh
    rw [show ("false" : String).data = ['f', 'a', 'l', 's', 'e'] from rfl] at hh
    exact absurd (List.head_eq_of_cons_eq hh) (by decide)
  · intro hh
    rw [show ("true" : String).data = ['t', 'r', 'u', 'e'] from rfl] at hh
    exact absurd (List.head_eq_of_cons_eq hh) (by decide)

theorem parseKVLine_at (key v : List Char) (hk : ':' ∉ key) :
    parseKVLine (key ++ ':' :: ' ' :: v) = (parseFMValue v).map (fun fv => (key, fv)) := by
  rw [parseKVLine, breakOnChar_append ':' key (' ' :: v) hk]
  cases hv : parseFMValue v <;> simp [hv]

theorem md_data_shape (b : BlogInput) :
    (convertJsonToMarkdown b).data =
      "---".data ++ '\n' ::
      (("title".data ++ ':' :: ' ' :: '"' :: (b.title.data ++ ['"'])) ++ '\n' ::
      (("description".data ++ ':' :: ' ' :: '"' :: (b.description.data ++ ['"'])) ++ '\n' ::
      (("author".data ++ ':' :: ' ' :: '"' :: (b.author.data ++ ['"'])) ++ '\n' ::
      (("date".data ++ ':' :: ' ' :: '"' :: (b.date.data ++ ['"'])) ++ '\n' ::
      (("published".data ++ ':' :: ' ' :: (boolToString (b.published.getD true)).data) ++ '\n' ::
      ("---".data ++ '\n' :: b.content.data)))))) := by
  have d1 : ("---" : String).data = ['-', '-', '-'] := rfl
  have d2 : ("\n" : String).data = ['\n'] := rfl
  have d3 : ("title: \"" : String).data = ['t', 'i', 't', 'l', 'e', ':', ' ', '"'] := rfl
  have d4 : ("\"" : String).data = ['"'] := rfl
  have d5 : ("description: \"" : String).data =
      ['d', 'e', 's', 'c', 'r', 'i', 'p', 't', 'i', 'o', 'n', ':', ' ', '"'] := rfl
  have d6 : ("author: \"" : String).data = ['a', 'u', 't', 'h', 'o', 'r', ':', ' ', '"'] := rfl
  have d7 : ("date: \"" : String).data = ['d', 'a', 't', 'e', ':', ' ', '"'] := rfl
  have d8 : ("published: " : String).data =
      ['p', 'u', 'b', 'l', 'i', 's', 'h', 'e', 'd', ':', ' '] := rfl
  have d9 : ("" : String).data = [] := rfl
  have k1 : ("title" : String).data = ['t', 'i', 't', 'l', 'e'] := rfl
  have k2 : ("description" : String).data =
      ['d', 'e', 's', 'c', 'r', 'i', 'p', 't', 'i', 'o', 'n'] := rfl
  have k3 : ("author" : String).data = ['a', 'u', 't', 'h', 'o', 'r'] := rfl
  have k4 : ("date" : String).data = ['d', 'a', 't', 'e'] := rfl
  have k5 : ("published" : String).data = ['p', 'u', 'b', 'l', 'i', 's', 'h', 'e', 'd'] := rfl
  simp only [convertJsonToMarkdown, String.data_append, d1, d2, d3, d4, d5, d6, d7, d8, d9,
    k1, k2, k3, k4, k5, List.append_assoc, List.cons_append, List.nil_append, List.append_nil]

theorem nl_notin_line (key T : List Char) (hk : '\n' ∉ key) (hT : '\n' ∉ T) :
    '\n' ∉ key ++ ':' :: ' ' :: '"' :: (T ++ ['"']) := by
  intro hmem
  simp only [List.mem_append, List.mem_cons, List.mem_singleton] at hmem
  rcases hmem with h | h | h | h | h | h
  · exact hk h
  · exact absurd h (by decide)
  · exact absurd h (by decide)
  · exact absurd h (by decide)
  · exact hT h
  · exact absurd h (by decide)

theorem parseFMLines_cons (l : List Char) (ls : List (List Char)) (kv : List Char × FMValue)
    (h : l ≠ "---".data) (hkv : parseKVLine l = some kv) :
    parseFMLines (l :: ls) = (parseFMLines ls).map (fun p => (kv :: p.1, p.2)) := by
  simp only [parseFMLines, if_neg h, hkv]
  rcases hp : parseFMLines ls with _ | ⟨kvs, rest⟩ <;> simp

theorem parseFMLines_close (ls : List (List Char)) :
    parseFMLines ("---".data :: ls) = some ([], ls) := by
  simp [parseFMLines]

theorem line_ne_close (c : Char) (key rest : List Char) (h : key = c :: rest) (hc : c ≠ '-') :
    ∀ (v : List Char), key ++ ':' :: ' ' :: v ≠ "---".data := by
  intro v hh
  rw [h, show ("---" : String).data = ['-', '-', '-'] from rfl, List.cons_append] at hh
  exact absurd (List.head_eq_of_cons_eq hh) hc

/-- C4 (amended): for every `BlogInput` whose title, description, author and
date contain no newline and no double quote, parsing the frontmatter block of
`convertJsonToMarkdown`'s output recovers exactly the original title,
description, author, date and published values (`published` defaulting to
`true` when omitted), and the text after the frontmatter equals the original
content unchanged. -/
theorem C4_frontmatter_roundtrip_amended (b : BlogInput)
    (ht1 : '\n' ∉ b.title.data) (ht2 : '"' ∉ b.title.data)
    (hd1 : '\n' ∉ b.description.data) (hd2 : '"' ∉ b.description.data)
    (ha1 : '\n' ∉ b.author.data) (ha2 : '"' ∉ b.author.data)
    (hdt1 : '\n' ∉ b.date.data) (hdt2 : '"' ∉ b.date.data) :
    parseFrontmatter (convertJsonToMarkdown b).data =
      some ([("title".data, .str b.title.data),
             ("description".data, .str b.description.data),
             ("author".data, .str b.author.data),
             ("date".data, .str b.date.data),
             ("published".data, .bool (b.published.getD true))],
            b.content.data) := by
  have hsplit : splitNl (convertJsonToMarkdown b).data =
      "---".data ::
      ("title".data ++ ':' :: ' ' :: '"' :: (b.title.data ++ ['"'])) ::
      ("description".data ++ ':' :: ' ' :: '"' :: (b.description.data ++ ['"'])) ::
      ("author".data ++ ':' :: ' ' :: '"' :: (b.author.data ++ ['"'])) ::
      ("date".data ++ ':' :: ' ' :: '"' :: (b.date.data ++ ['"'])) ::
      ("published".data ++ ':' :: ' ' :: (boolToString (b.published.getD true)).data) ::
      "---".data :: splitNl b.content.data := by
    rw [md_data_shape b]
    rw [splitNl_cons_append _ _ (by decide)]
    rw [splitNl_cons_append _ _ (nl_notin_line _ _ (by decide) ht1)]
    rw [splitNl_cons_append _ _ (nl_notin_line _ _ (by decide) hd1)]
    rw [splitNl_cons_append _ _ (nl_notin_line _ _ (by decide) ha1)]
    rw [splitNl_cons_append _ _ (nl_notin_line _ _ (by decide) hdt1)]
    rw [splitNl_cons_append _ _ (by
      intro hmem
      simp only [List.mem_append, List.mem_cons] at hmem
      rcases hmem with h | h | h | h
      · exact absurd h (by decide)
      · exact absurd h (by decide)
      · exact absurd h (by decide)
      · rcases hb : b.published.getD true <;> rw [hb] at h <;> exact absurd h (by decide))]
    rw [splitNl_cons_append _ _ (by decide)]
  have hkv1 : parseKVLine ("title".data ++ ':' :: ' ' :: '"' :: (b.title.data ++ ['"'])) =
      some ("title".data, .str b.title.data) := by
    rw [parseKVLine_at _ _ (by decide), parseFMValue_quoted _ ht2]
    rfl
  have hkv2 : parseKVLine ("description".data ++ ':' :: ' ' :: '"' :: (b.description.data ++ ['"'])) =
      some ("description".data, .str b.description.data) := by
    rw [parseKVLine_at _ _ (by decide), parseFMValue_quoted _ hd2]
    rfl
  have hkv3 : parseKVLine ("author".data ++ ':' :: ' ' :: '"' :: (b.author.data ++ ['"'])) =
      some ("author".data, .str b.author.data) := by
    rw [parseKVLine_at _ _ (by decide), parseFMValue_quoted _ ha2]
    rfl
  have hkv4 : parseKVLine ("date".data ++ ':' :: ' ' :: '"' :: (b.date.data ++ ['"'])) =
      some ("date".data, .str b.date.data) := by
    rw [parseKVLine_at _ _ (by decide), parseFMValue_quoted _ hdt2]
    rfl
  have hkv5 : parseKVLine ("published".data ++ ':' :: ' ' :: (boolToString (b.published.getD true)).data) =
      some ("published".data, .bool (b.published.getD true)) := by
    rcases hb : b.published.getD true <;>
      rw [parseKVLine_at _ _ (by decide)] <;> rfl
  rw [parseFrontmatter, hsplit]
  simp only [if_pos rfl]
  rw [parseFMLines_cons _ _ _ (line_ne_close 't' _ _ rfl (by decide) _) hkv1]
  rw [parseFMLines_cons _ _ _ (line_ne_close 'd' _ _ rfl (by decide) _) hkv2]
  rw [parseFMLines_cons _ _ _ (line_ne_close 'a' _ _ rfl (by decide) _) hkv3]
  rw [parseFMLines_cons _ _ _ (line_ne_close 'd' _ _ rfl (by decide) _) hkv4]
  rw [parseFMLines_cons _ _ _ (line_ne_close 'p' _ _ rfl (by decide) _) hkv5]
  rw [parseFMLines_close]
  simp [unlines_splitNl]

/-- C4 counterexample: with a double quote in the title the parse fails. -/
theorem C4_frontmatter_counterexample :
    parseFrontmatter (convertJsonToMarkdown
      { title := "a\"b", description := "D", author := "A", date := "2025-01-01",
        published := none, content := "body" }).data = none := by
  decide

/-- Witness for C4. -/
theorem C4_frontmatter_roundtrip_amended_witness :
    parseFrontmatter (convertJsonToMarkdown
      { title := "T", description := "D", author := "A", date := "2025-01-01",
        published := none, content := "body\nmore" }).data =
      some ([("title".data, .str "T".data),
             ("description".data, .str "D".data),
             ("author".data, .str "A".data),
             ("date".data, .str "2025-01-01".data),
             ("published".data, .bool true)],
            "body\nmore".data) :=
  C4_frontmatter_roundtrip_amended
    { title := "T", description := "D", author := "A", date := "2025-01-01",
      published := none, content := "body\nmore" }
    (by decide) (by decide) (by decide) (by decide)
    (by decide) (by decide) (by decide) (by decide)

/-! ## C8: exact shape of the serialized markdown -/

/-- C8 counterexample: the output has no blank line between the closing
`---` line and the body — the body follows the closing newline directly, so
the serializer disagrees with the claimed shape. -/
theorem C8_blank_line_counterexample :
    convertJsonToMarkdown
      { title := "T", description := "D", author := "A", date := "2025-01-01",
        published := none, content := "body" } ≠
    convertJsonToMarkdownClaimed
      { title := "T", description := "D", author := "A", date := "2025-01-01",
        published := none, content := "body" } := by
  decide

/-- C8 (amended): for every `BlogInput`, `convertJsonToMarkdown` returns a
`---` line, the frontmatter keys in the fixed order title, description,
author, date, published (string values double-quoted, `published` rendered as
a bare boolean defaulting to `true`), a closing `---` line terminated by a
newline, and then the raw body content directly (no blank line in between).
-/
theorem C8_markdown_shape_amended (b : BlogInput) :
    (convertJsonToMarkdown b).data =
      "---\ntitle: \"".data ++ b.title.data ++
      "\"\ndescription: \"".data ++ b.description.data ++
      "\"\nauthor: \"".data ++ b.author.data ++
      "\"\ndate: \"".data ++ b.date.data ++
      "\"\npublished: ".data ++ (boolToString (b.published.getD true)).data ++
      "\n---\n".data ++ b.content.data := by
  have e1 : ("---\ntitle: \"" : String).data =
      ['-', '-', '-', '\n', 't', 'i', 't', 'l', 'e', ':', ' ', '"'] := rfl
  have e2 : ("\"\ndescription: \"" : String).data =
      ['"', '\n', 'd', 'e', 's', 'c', 'r', 'i', 'p', 't', 'i', 'o', 'n', ':', ' ', '"'] := rfl
  have e3 : ("\"\nauthor: \"" : String).data =
      ['"', '\n', 'a', 'u', 't', 'h', 'o', 'r', ':', ' ', '"'] := rfl
  have e4 : ("\"\ndate: \"" : String).data =
      ['"', '\n', 'd', 'a', 't', 'e', ':', ' ', '"'] := rfl
  have e5 : ("\"\npublished: " : String).data =
      ['"', '\n', 'p', 'u', 'b', 'l', 'i', 's', 'h', 'e', 'd', ':', ' '] := rfl
  have e6 : ("\n---\n" : String).data = ['\n', '-', '-', '-', '\n'] := rfl
  have d1 : ("---" : String).data = ['-', '-', '-'] := rfl
  have d2 : ("\n" : String).data = ['\n'] := rfl
  have d3 : ("title: \"" : String).data = ['t', 'i', 't', 'l', 'e', ':', ' ', '"'] := rfl
  have d4 : ("\"" : String).data = ['"'] := rfl
  have d5 : ("description: \"" : String).data =
      ['d', 'e', 's', 'c', 'r', 'i', 'p', 't', 'i', 'o', 'n', ':', ' ', '"'] := rfl
  have d6 : ("author: \"" : String).data = ['a', 'u', 't', 'h', 'o', 'r', ':', ' ', '"'] := rfl
  have d7 : ("date: \"" : String).data = ['d', 'a', 't', 'e', ':', ' ', '"'] := rfl
  have d8 : ("published: " : String).data =
      ['p', 'u', 'b', 'l', 'i', 's', 'h', 'e', 'd', ':', ' '] := rfl
  have d9 : ("" : String).data = [] := rfl
  simp only [convertJsonToMarkdown, String.data_append, e1, e2, e3, e4, e5, e6,
    d1, d2, d3, d4, d5, d6, d7, d8, d9,
    List.append_assoc, List.cons_append, List.nil_append, List.append_nil]

/-! ## Slug lemmas -/

/-- Does the list contain two adjacent hyphens? -/
def hasDoubleHyphen : List Char → Bool
  | a :: b :: rest => (a = '-' && b = '-') || hasDoubleHyphen (b :: rest)
  | _ => false

/-- Is the head a hyphen? -/
def headHyphen : List Char → Bool
  | c :: _ => c = '-'
  | [] => false

theorem hasDoubleHyphen_cons (a : Char) (l : List Char) :
    hasDoubleHyphen (a :: l) = ((a = '-' && headHyphen l) || hasDoubleHyphen l) := by
  cases l with
  | nil => simp [hasDoubleHyphen, headHyphen]
  | cons b rest => simp [hasDoubleHyphen, headHyphen]

theorem mem_collapseRunsAux (p : Char → Bool) (l : List Char) : ∀ (flag : Bool),
    ∀ c ∈ collapseRunsAux p flag l, c = '-' ∨ (c ∈ l ∧ p c = false) := by
  induction l with
  | nil => intro flag c hc; simp [collapseRunsAux] at hc
  | cons x xs ih =>
    intro flag c hc
    rw [collapseRunsAux] at hc
    by_cases hx : p x
    · rw [if_pos hx] at hc
      cases flag with
      | true =>
        rw [if_pos rfl] at hc
        rcases ih true c hc with h | ⟨h1, h2⟩
        · exact Or.inl h
        · exact Or.inr ⟨List.mem_cons_of_mem x h1, h2⟩
      | false =>
        rw [if_neg (by decide)] at hc
        rcases List.mem_cons.mp hc with h | h
        · exact Or.inl h
        · rcases ih true c h with h' | ⟨h1, h2⟩
          · exact Or.inl h'
          · exact Or.inr ⟨List.mem_cons_of_mem x h1, h2⟩
    · rw [if_neg hx] at hc
      rcases List.mem_cons.mp hc with h | h
      · subst h; exact Or.inr ⟨List.mem_cons_self c xs, by simpa using hx⟩
      · rcases ih false c h with h' | ⟨h1, h2⟩
        · exact Or.inl h'
        · exact Or.inr ⟨List.mem_cons_of_mem x h1, h2⟩

theorem mem_dropWhile (p : Char → Bool) (l : List Char) :
    ∀ c ∈ l.dropWhile p, c ∈ l := by
  induction l with
  | nil => intro c hc; simp at hc
  | cons x xs ih =>
    intro c hc
    rw [List.dropWhile_cons] at hc
    by_cases hx : p x
    · rw [if_pos hx] at hc; exact List.mem_cons_of_mem x (ih c hc)
    · rw [if_neg hx] at hc; exact hc

theorem mem_jsTrimList (l : List Char) : ∀ c ∈ jsTrimList l, c ∈ l := by
  intro c hc
  rw [jsTrimList, List.mem_reverse] at hc
  have h1 := mem_dropWhile isJsSpace _ c hc
  rw [List.mem_reverse] at h1
  exact mem_dropWhile isJsSpace l c h1

/-- Collapsing hyphen runs yields no adjacent hyphens; with the flag set the
result does not start with a hyphen. -/
theorem collapse_hyphens_no_double (l : List Char) : ∀ flag : Bool,
    hasDoubleHyphen (collapseRunsAux (fun c => c = '-') flag l) = false ∧
    headHyphen (collapseRunsAux (fun c => c = '-') true l) = false := by
  induction l with
  | nil => intro flag; simp [collapseRunsAux, hasDoubleHyphen, headHyphen]
  | cons x xs ih =>
    intro flag
    constructor
    · rw [collapseRunsAux]
      by_cases hx : x = '-'
      · rw [if_pos (by simp [hx])]
        cases flag with
        | true => rw [if_pos rfl]; exact (ih true).1
        | false =>
          rw [if_neg (by decide), hasDoubleHyphen_cons]
          simp [(ih true).1, (ih true).2]
      · rw [if_neg (by simp [hx]), hasDoubleHyphen_cons]
        simp [hx, (ih false).1]
    · rw [collapseRunsAux]
      by_cases hx : x = '-'
      · rw [if_pos (by simp [hx]), if_pos rfl]
        exact (ih true).2
      · rw [if_neg (by simp [hx])]
        simp [headHyphen, hx]

/-- A list without whitespace characters is unchanged by `jsTrimList`. -/
theorem jsTrimList_no_space (l : List Char) (h : ∀ c ∈ l, isJsSpace c = false) :
    jsTrimList l = l := by
  have drop_id : ∀ (m : List Char), (∀ c ∈ m, isJsSpace c = false) →
      m.dropWhile isJsSpace = m := by
    intro m hm
    cases m with
    | nil => rfl
    | cons x xs =>
      rw [List.dropWhile_cons, if_neg]
      simp [hm x (List.mem_cons_self x xs)]
  rw [jsTrimList, drop_id l h, drop_id, List.reverse_reverse]
  intro c hc
  exact h c (List.mem_reverse.mp hc)

/-- No adjacent hyphens survive in `generateSlug`'s output. -/
theorem generateSlug_no_double_hyphen (title : String) :
    hasDoubleHyphen (generateSlug title).data = false := by
  rw [generateSlug]
  have hns : ∀ c ∈ collapseRuns (fun c => c = '-')
      (collapseRuns isJsSpace
        ((title.data.map Char.toLower).filter
          (fun c => isWordChar c || isJsSpace c || c = '-'))), isJsSpace c = false := by
    intro c hc
    rcases mem_collapseRunsAux _ _ false c hc with h | ⟨h1, _⟩
    · subst h; decide
    · rcases mem_collapseRunsAux isJsSpace _ false c h1 with h' | ⟨_, h2⟩
      · subst h'; decide
      · exact h2
  show hasDoubleHyphen (jsTrimList _) = false
  rw [jsTrimList_no_space _ hns]
  exact (collapse_hyphens_no_double _ false).1

/-- C2 counterexample: underscores are word characters, so the blog-converter
slug generator keeps them, while the claimed transform collapses them to
hyphens. -/
theorem C2_slug_counterexample :
    generateSlug "a_b" = "a_b" ∧ slugClaimed "a_b" = "a-b" ∧
    generateSlug "a_b" ≠ slugClaimed "a_b" := by
  decide

/-- C2 (amended): the blog-converter slug generator returns only lowercased
word characters of the title and hyphens (underscores, being word characters,
survive unchanged), never two adjacent hyphens; it is deterministic (as is
the json-blog-service variant), near-duplicate titles can collide, and the
json-blog-service variant does collapse underscores. -/
theorem C2_slug_amended (title : String) :
    (∀ c ∈ (generateSlug title).data,
      c = '-' ∨ (c ∈ title.data.map Char.toLower ∧ isWordChar c = true)) ∧
    hasDoubleHyphen (generateSlug title).data = false ∧
    (∀ s : String, s = title →
      generateSlug s = generateSlug title ∧ jsonGenerateSlug s = jsonGenerateSlug title) ∧
    (generateSlug "Hello, World!" = generateSlug "Hello World" ∧
      jsonGenerateSlug "Hello, World!" = jsonGenerateSlug "Hello World" ∧
      ("Hello, World!" : String) ≠ "Hello World") ∧
    (generateSlug "a_b" = "a_b" ∧ jsonGenerateSlug "a_b" = "a-b") := by
  refine ⟨?_, generateSlug_no_double_hyphen title, ?_, by decide, by decide⟩
  · intro c hc
    rw [generateSlug] at hc
    have h1 := mem_jsTrimList _ c hc
    rcases mem_collapseRunsAux _ _ false c h1 with h | ⟨h2, hh⟩
    · exact Or.inl h
    · rcases mem_collapseRunsAux isJsSpace _ false c h2 with h | ⟨h3, hs⟩
      · exact Or.inl h
      · rw [List.mem_filter] at h3
        refine Or.inr ⟨h3.1, ?_⟩
        have := h3.2
        simp only [Bool.or_eq_true] at this
        rcases this with (hw | hsp) | hhy
        · exact hw
        · rw [hs] at hsp; exact absurd hsp (by decide)
        · rw [show (c = '-' : Bool) = decide (c = '-') from rfl] at hhy
          exact absurd (of_decide_eq_true hhy) (by simpa using hh)
  · intro s hs
    rw [hs]
    exact ⟨rfl, rfl⟩

/-- Witness for C2. -/
theorem C2_slug_amended_witness :
    ('x' = '-' ∨ ('x' ∈ ("x y" : String).data.map Char.toLower ∧ isWordChar 'x' = true)) ∧
    generateSlug "x y" = generateSlug "x y" := by
  refine ⟨(C2_slug_amended "x y").1 'x' (by decide), ?_⟩
  exact ((C2_slug_amended "x y").2.2.1 "x y" rfl).1

/-! ## C1: webhook auto-merge conditions -/

theorem shouldAutoMerge_iff (pr : WebhookPR) :
    shouldAutoMerge pr = true ↔
      strStartsWith pr.title "📝 New Blog Post:" = true ∧
      (hasAutoMergeLabel pr = true ∨ pr.userLogin = "kkasaei") ∧
      pr.baseRef = "main" := by
  simp [shouldAutoMerge, Bool.and_eq_true, Bool.or_eq_true, decide_eq_true_iff, and_assoc]

/-- A webhook environment in which every provider call succeeds and the PR
reports `mergeable: true`. -/
def wenvOk : WebhookEnv :=
  { hasToken := true,
    pullsGet := fun _ => .ok (some true),
    pullsMerge := fun _ => .ok "merge-sha",
    createComment := fun _ _ => .ok () }

/-- A PR-opened payload whose title carries the blog prefix and whose PR has
an auto-merge label but an author that is not the automated account. -/
def wpayloadLabelOnly : WebhookPayload :=
  { action := "opened",
    pullRequest := some
      { number := 12, title := "📝 New Blog Post: Hi", headRef := "blog/hi-1",
        baseRef := "main", userLogin := "alice", labels := [{ name := "auto-merge" }] },
    repository := some { name := "repo", ownerLogin := "owner" } }

/-- C1 counterexample: the merge call is invoked although the PR author does
not match the automated system — the title marker plus the label (with base
`main`) suffice, so the three stated conditions need not all hold. -/
theorem C1_webhook_counterexample :
    (handleGithubWebhook wenvOk wpayloadLabelOnly).2 = true ∧
    wpayloadLabelOnly.pullRequest.map WebhookPR.userLogin ≠ some "kkasaei" := by
  decide

/-- C1 (amended): the merge call is invoked exactly when the token is
configured, the action is `opened`, a PR and a repository are present, the
PR title starts with the blog-post marker, an auto-merge label is present OR
the author is the automated account `kkasaei`, the base branch is `main`,
and the mergeability probe succeeds without reporting `mergeable: false`;
when any of these fails the handler responds without invoking the merge. -/
theorem C1_webhook_merge_characterization (env : WebhookEnv) (payload : WebhookPayload) :
    (handleGithubWebhook env payload).2 = true ↔
      env.hasToken = true ∧ payload.action = "opened" ∧
      ∃ pr, payload.pullRequest = some pr ∧
        (∃ repo, payload.repository = some repo) ∧
        strStartsWith pr.title "📝 New Blog Post:" = true ∧
        (hasAutoMergeLabel pr = true ∨ pr.userLogin = "kkasaei") ∧
        pr.baseRef = "main" ∧
        ∃ m, env.pullsGet pr.number = .ok m ∧ m ≠ some false := by
  unfold handleGithubWebhook
  cases htok : env.hasToken with
  | false => simp [htok]
  | true =>
    by_cases hact : payload.action = "opened"
    · cases hpr : payload.pullRequest with
      | none => simp [hact, hpr]
      | some pr =>
        by_cases hsam : shouldAutoMerge pr = true
        · have hc := (shouldAutoMerge_iff pr).mp hsam
          cases hrepo : payload.repository with
          | none => simp [hact, hpr, hsam, hrepo]
          | some repo =>
            cases hget : env.pullsGet pr.number with
            | error e => simp [hact, hpr, hsam, hrepo, hget, hc.1, hc.2.1, hc.2.2]
            | ok m =>
              by_cases hm : m = some false
              · simp [hact, hpr, hsam, hrepo, hget, hm, hc.1, hc.2.1, hc.2.2]
              · cases hmerge : env.pullsMerge pr.number with
                | error e =>
                  simp [hact, hpr, hsam, hrepo, hget, hm, hmerge, hc.1, hc.2.1, hc.2.2]
                | ok sha =>
                  cases hcomment : env.createComment pr.number sha with
                  | error e =>
                    simp [hact, hpr, hsam, hrepo, hget, hm, hmerge, hcomment,
                      hc.1, hc.2.1, hc.2.2]
                  | ok u =>
                    simp [hact, hpr, hsam, hrepo, hget, hm, hmerge, hcomment,
                      hc.1, hc.2.1, hc.2.2]
        · constructor
          · intro h
            rw [Bool.not_eq_true] at hsam
            simp [hact, hpr, hsam] at h
          · rintro ⟨-, -, pr', hpr', -, hb, hcnd, hbs, -⟩
            injection hpr' with he
            subst he
            exact absurd ((shouldAutoMerge_iff pr).mpr ⟨hb, hcnd, hbs⟩) hsam
    · simp [hact]

/-! ## Publisher trace lemmas -/

/-- Call classifiers used to count and exclude provider calls. -/
def isCreateBranchCall : GHCall → Bool
  | .createBranch _ _ => true
  | _ => false

def isCreatePRCall : GHCall → Bool
  | .createPullRequest _ _ _ _ => true
  | _ => false

def isCreateBlobCall : GHCall → Bool
  | .createBlob _ => true
  | _ => false

def isCreateCommitCall : GHCall → Bool
  | .createCommit _ _ _ => true
  | _ => false

def isUpdateRefCall : GHCall → Bool
  | .updateRef _ _ => true
  | _ => false

def isMergeCall : GHCall → Bool
  | .mergePullRequest _ _ _ => true
  | _ => false

def isDeleteBranchCall : GHCall → Bool
  | .deleteBranch _ => true
  | _ => false

def isFileExistsCall : GHCall → Bool
  | .fileExists _ _ => true
  | _ => false


/-- Calls that the post-PR stages (labels, reviewers, auto-merge) may make. -/
def isStageCall : GHCall → Bool
  | .addLabels _ _ => true
  | .addReviewers _ _ => true
  | .mergePullRequest _ _ _ => true
  | _ => false

theorem exceptIsOk_ok {ε α : Type} (v : α) : (Except.ok v : Except ε α).isOk = true := rfl

theorem exceptIsOk_error {ε α : Type} (e : ε) : (Except.error e : Except ε α).isOk = false := rfl

theorem stageCall_classification (c : GHCall) (h : isStageCall c = true) :
    isDeleteBranchCall c = false ∧ isFileExistsCall c = false ∧
    isCreateCommitCall c = false ∧ isCreateBlobCall c = false ∧
    isUpdateRefCall c = false ∧ isCreateBranchCall c = false ∧ isCreatePRCall c = false := by
  cases c <;> simp_all [isStageCall, isDeleteBranchCall, isFileExistsCall, isCreateCommitCall,
    isCreateBlobCall, isUpdateRefCall, isCreateBranchCall, isCreatePRCall]

theorem mem_dropLast_cons {α : Type} {c a : α} {l : List α}
    (h : c ∈ (a :: l).dropLast) : c = a ∨ c ∈ l.dropLast := by
  cases l with
  | nil => simp at h
  | cons x xs =>
    rw [List.dropLast_cons₂] at h
    exact List.mem_cons.mp h

theorem mergeStage_spec (env : Oracle) (options : Option PublishOptions) (pr : PRInfo)
    (ct cm : String) (success : Option MergeInfo → PublishResult)
    (hsucc : ∀ m, (success m).success = true) :
    (∀ c ∈ (mergeStage env options pr ct cm success).2.dropLast, callOk env c = true) ∧
    ((mergeStage env options pr ct cm success).1.success = true) ∧
    (∀ c ∈ (mergeStage env options pr ct cm success).2, isStageCall c = true) ∧
    (∀ c ∈ (mergeStage env options pr ct cm success).2,
      isMergeCall c = false → callOk env c = true) := by
  by_cases hauto : (options.bind PublishOptions.autoMerge).getD false = true
  · simp only [mergeStage, if_pos hauto]
    cases hm : env.mergePullRequest pr.number ct cm with
    | error e =>
      refine ⟨by simp, hsucc none, by simp [isStageCall], ?_⟩
      intro c hc hnm
      rw [List.mem_singleton] at hc
      subst hc
      simp [isMergeCall] at hnm
    | ok m =>
      refine ⟨by simp, hsucc (some m), by simp [isStageCall], ?_⟩
      intro c hc hnm
      rw [List.mem_singleton] at hc
      subst hc
      simp [isMergeCall] at hnm
  · simp only [mergeStage, if_neg hauto]
    exact ⟨by simp, hsucc none, by simp, by simp⟩

theorem reviewersStage_spec (env : Oracle) (options : Option PublishOptions) (pr : PRInfo)
    (ct cm fm : String) (success : Option MergeInfo → PublishResult)
    (hsucc : ∀ m, (success m).success = true) :
    (∀ c ∈ (reviewersStage env options pr ct cm fm success).2.dropLast, callOk env c = true) ∧
    ((reviewersStage env options pr ct cm fm success).1.success = false →
      (reviewersStage env options pr ct cm fm success).1.message = fm ∧
      (reviewersStage env options pr ct cm fm success).1.error.isSome = true) ∧
    (∀ c ∈ (reviewersStage env options pr ct cm fm success).2, isStageCall c = true) ∧
    ((reviewersStage env options pr ct cm fm success).1.success = true →
      ∀ c ∈ (reviewersStage env options pr ct cm fm success).2,
        isMergeCall c = false → callOk env c = true) := by
  have hm := mergeStage_spec env options pr ct cm success hsucc
  rcases hrs : options.bind PublishOptions.reviewers with _ | rs
  · simp only [reviewersStage, hrs]
    exact ⟨hm.1, fun hf => absurd hm.2.1 (by simp [hf]), hm.2.2.1, fun _ => hm.2.2.2⟩
  · by_cases hlen : 0 < rs.length
    · simp only [reviewersStage, hrs, if_pos hlen]
      cases hcall : env.addReviewers pr.number rs with
      | error e =>
        refine ⟨by simp, by simp [mkFailResult], by simp [isStageCall], ?_⟩
        intro hs
        simp [mkFailResult] at hs
      | ok u =>
        refine ⟨?_, ?_, ?_, ?_⟩
        · intro c hc
          rcases mem_dropLast_cons hc with h | h
          · subst h; simp [callOk, hcall, Except.isOk, Except.toBool]
          · exact hm.1 c h
        · intro hf
          exact absurd hm.2.1 (by simpa using hf)
        · intro c hc
          rcases List.mem_cons.mp hc with h | h
          · subst h; simp [isStageCall]
          · exact hm.2.2.1 c h
        · intro hs c hc hnm
          rcases List.mem_cons.mp hc with h | h
          · subst h; simp [callOk, hcall, Except.isOk, Except.toBool]
          · exact hm.2.2.2 c h hnm
    · simp only [reviewersStage, hrs, if_neg hlen]
      exact ⟨hm.1, fun hf => absurd hm.2.1 (by simp [hf]), hm.2.2.1, fun _ => hm.2.2.2⟩

theorem labelsStage_spec (env : Oracle) (options : Option PublishOptions) (pr : PRInfo)
    (ct cm fm : String) (success : Option MergeInfo → PublishResult)
    (hsucc : ∀ m, (success m).success = true) :
    (∀ c ∈ (labelsStage env options pr ct cm fm success).2.dropLast, callOk env c = true) ∧
    ((labelsStage env options pr ct cm fm success).1.success = false →
      (labelsStage env options pr ct cm fm success).1.message = fm ∧
      (labelsStage env options pr ct cm fm success).1.error.isSome = true) ∧
    (∀ c ∈ (labelsStage env options pr ct cm fm success).2, isStageCall c = true) ∧
    ((labelsStage env options pr ct cm fm success).1.success = true →
      ∀ c ∈ (labelsStage env options pr ct cm fm success).2,
        isMergeCall c = false → callOk env c = true) := by
  have hm := reviewersStage_spec env options pr ct cm fm success hsucc
  rcases hls : options.bind PublishOptions.labels with _ | ls
  · simp only [labelsStage, hls]
    exact ⟨hm.1, hm.2.1, hm.2.2.1, hm.2.2.2⟩
  · by_cases hlen : 0 < ls.length
    · simp only [labelsStage, hls, if_pos hlen]
      cases hcall : env.addLabels pr.number ls with
      | error e =>
        refine ⟨by simp, by simp [mkFailResult], by simp [isStageCall], ?_⟩
        intro hs
        simp [mkFailResult] at hs
      | ok u =>
        refine ⟨?_, ?_, ?_, ?_⟩
        · intro c hc
          rcases mem_dropLast_cons hc with h | h
          · subst h; simp [callOk, hcall, Except.isOk, Except.toBool]
          · exact hm.1 c h
        · exact hm.2.1
        · intro c hc
          rcases List.mem_cons.mp hc with h | h
          · subst h; simp [isStageCall]
          · exact hm.2.2.1 c h
        · intro hs c hc hnm
          rcases List.mem_cons.mp hc with h | h
          · subst h; simp [callOk, hcall, Except.isOk, Except.toBool]
          · exact hm.2.2.2 hs c h hnm
    · simp only [labelsStage, hls, if_neg hlen]
      exact ⟨hm.1, hm.2.1, hm.2.2.1, hm.2.2.2⟩

/-- The branch-creation call of one `publishBlog` invocation. -/
def publishCB (blog : BlogInput) (options : Option PublishOptions) (ts : Nat) : GHCall :=
  .createBranch (publishBranchName blog ts) (resolveBaseBranch options)

/-- The file-creation call of one `publishBlog` invocation. -/
def publishCF (cp : String) (blog : BlogInput) (ts : Nat) : GHCall :=
  .createOrUpdateFile (cp ++ "/" ++ (generateSlug blog.title ++ ".md"))
    (convertJsonToMarkdown blog)
    ("feat: Add new blog post \"" ++ blog.title ++ "\"")
    (publishBranchName blog ts)

/-- The PR-creation call of one `publishBlog` invocation. -/
def publishCP (blog : BlogInput) (options : Option PublishOptions) (ts : Nat) : GHCall :=
  .createPullRequest ("📝 New Blog Post: " ++ blog.title)
    (generatePRBody blog (generateSlug blog.title))
    (publishBranchName blog ts) (resolveBaseBranch options)

/-- Every call in a `publishBlog` trace is its branch call, its file call,
its PR call, or one of the post-PR stage calls. -/
theorem publishBlog_trace_mem (env : Oracle) (cp : String) (blog : BlogInput)
    (options : Option PublishOptions) (ts : Nat) :
    ∀ c ∈ (publishBlog env cp blog options ts).2,
      c = publishCB blog options ts ∨ c = publishCF cp blog ts ∨
      c = publishCP blog options ts ∨ isStageCall c = true := by
  intro c hc
  rw [publishBlog] at hc
  cases hb : env.createBranch (publishBranchName blog ts) (resolveBaseBranch options) with
  | error e =>
    rw [hb] at hc
    rw [List.mem_singleton] at hc
    exact Or.inl hc
  | ok cb =>
    rw [hb] at hc
    cases hf : env.createOrUpdateFile (cp ++ "/" ++ (generateSlug blog.title ++ ".md"))
        (convertJsonToMarkdown blog)
        ("feat: Add new blog post \"" ++ blog.title ++ "\"")
        (publishBranchName blog ts) with
    | error e =>
      rw [hf] at hc
      rcases List.mem_cons.mp hc with h | h
      · exact Or.inl h
      · rw [List.mem_singleton] at h
        exact Or.inr (Or.inl h)
    | ok fu =>
      rw [hf] at hc
      cases hpc : env.createPullRequest ("📝 New Blog Post: " ++ blog.title)
          (generatePRBody blog (generateSlug blog.title))
          (publishBranchName blog ts) (resolveBaseBranch options) with
      | error e =>
        rw [hpc] at hc
        rcases List.mem_cons.mp hc with h | h
        · exact Or.inl h
        · rcases List.mem_cons.mp h with h2 | h2
          · exact Or.inr (Or.inl h2)
          · rw [List.mem_singleton] at h2
            exact Or.inr (Or.inr (Or.inl h2))
      | ok pr =>
        rw [hpc] at hc
        have hstage := labelsStage_spec env options pr
          ("Auto-merge: " ++ blog.title)
          ("Automatically merged blog post: " ++ blog.title)
          "Failed to publish blog post"
          (publishBlogSuccess blog ts pr)
          (fun m => rfl)
        rcases List.mem_cons.mp hc with h | h
        · exact Or.inl h
        · rcases List.mem_cons.mp h with h2 | h2
          · exact Or.inr (Or.inl h2)
          · rcases List.mem_cons.mp h2 with h3 | h3
            · exact Or.inr (Or.inr (Or.inl h3))
            · exact Or.inr (Or.inr (Or.inr (hstage.2.2.1 c h3)))

/-- Abort-on-failure and result reporting of `publishBlog`: every call
before the last one succeeded; failed results carry the catch-block message
and an error string; on success every non-merge call succeeded. -/
theorem publishBlog_flow_spec (env : Oracle) (cp : String) (blog : BlogInput)
    (options : Option PublishOptions) (ts : Nat) :
    (∀ c ∈ (publishBlog env cp blog options ts).2.dropLast, callOk env c = true) ∧
    ((publishBlog env cp blog options ts).1.success = false →
      (publishBlog env cp blog options ts).1.message = "Failed to publish blog post" ∧
      (publishBlog env cp blog options ts).1.error.isSome = true) ∧
    ((publishBlog env cp blog options ts).1.success = true →
      ∀ c ∈ (publishBlog env cp blog options ts).2, isMergeCall c = false →
        callOk env c = true) := by
  cases hb : env.createBranch (publishBranchName blog ts) (resolveBaseBranch options) with
  | error e =>
    simp only [publishBlog, hb]
    exact ⟨by simp, by simp [mkFailResult], by simp [mkFailResult]⟩
  | ok cb =>
    cases hf : env.createOrUpdateFile (cp ++ "/" ++ (generateSlug blog.title ++ ".md"))
        (convertJsonToMarkdown blog)
        ("feat: Add new blog post \"" ++ blog.title ++ "\"")
        (publishBranchName blog ts) with
    | error e =>
      simp only [publishBlog, hb, hf]
      refine ⟨?_, by simp [mkFailResult], by simp [mkFailResult]⟩
      intro c hc
      rcases mem_dropLast_cons hc with h | h
      · subst h; simp [callOk, hb, Except.isOk, Except.toBool]
      · simp at h
    | ok fu =>
      cases hpc : env.createPullRequest ("📝 New Blog Post: " ++ blog.title)
          (generatePRBody blog (generateSlug blog.title))
          (publishBranchName blog ts) (resolveBaseBranch options) with
      | error e =>
        simp only [publishBlog, hb, hf, hpc]
        refine ⟨?_, by simp [mkFailResult], by simp [mkFailResult]⟩
        intro c hc
        rcases mem_dropLast_cons hc with h | h
        · subst h; simp [callOk, hb, Except.isOk, Except.toBool]
        · rcases mem_dropLast_cons h with h2 | h2
          · subst h2; simp [callOk, hf, Except.isOk, Except.toBool]
          · simp at h2
      | ok pr =>
        have hstage := labelsStage_spec env options pr
          ("Auto-merge: " ++ blog.title)
          ("Automatically merged blog post: " ++ blog.title)
          "Failed to publish blog post"
          (publishBlogSuccess blog ts pr)
          (fun m => rfl)
        simp only [publishBlog, hb, hf, hpc]
        refine ⟨?_, ?_, ?_⟩
        · intro c hc
          rcases mem_dropLast_cons hc with h | h
          · subst h; simp [callOk, hb, Except.isOk, Except.toBool]
          · rcases mem_dropLast_cons h with h2 | h2
            · subst h2; simp [callOk, hf, Except.isOk, Except.toBool]
            · rcases mem_dropLast_cons h2 with h3 | h3
              · subst h3; simp [callOk, hpc, Except.isOk, Except.toBool]
              · exact hstage.1 c h3
        · exact hstage.2.1
        · intro hs c hc hnm
          rcases List.mem_cons.mp hc with h | h
          · subst h; simp [callOk, hb, Except.isOk, Except.toBool]
          · rcases List.mem_cons.mp h with h2 | h2
            · subst h2; simp [callOk, hf, Except.isOk, Except.toBool]
            · rcases List.mem_cons.mp h2 with h3 | h3
              · subst h3; simp [callOk, hpc, Except.isOk, Except.toBool]
              · exact hstage.2.2.2 hs c h3 hnm

/-- An oracle on which every provider operation succeeds. -/
structure OracleTotal (env : Oracle) : Prop where
  createBranch : ∀ b base, ∃ r, env.createBranch b base = .ok r
  createOrUpdateFile : ∀ p c m b, env.createOrUpdateFile p c m b = .ok ()
  getRef : ∀ b, ∃ s, env.getRef b = .ok s
  getCommit : ∀ s, ∃ t, env.getCommit s = .ok t
  createBlob : ∀ c, ∃ s, env.createBlob c = .ok s
  createTree : ∀ es bt, ∃ s, env.createTree es bt = .ok s
  createCommit : ∀ m t ps, ∃ s, env.createCommit m t ps = .ok s
  updateRef : ∀ b s, env.updateRef b s = .ok ()
  createPullRequest : ∀ t b h base, ∃ pr, env.createPullRequest t b h base = .ok pr
  addLabels : ∀ n ls, env.addLabels n ls = .ok ()
  addReviewers : ∀ n rs, env.addReviewers n rs = .ok ()
  mergePullRequest : ∀ n ct cm, ∃ m, env.mergePullRequest n ct cm = .ok m

theorem createBlobsLoop_spec (env : Oracle) : ∀ files : List FileContent,
    (∀ c ∈ (createBlobsLoop env files).2, isCreateBlobCall c = true) ∧
    (∀ c ∈ (createBlobsLoop env files).2.dropLast, callOk env c = true) ∧
    ((∃ v, (createBlobsLoop env files).1 = .ok v) →
      ∀ c ∈ (createBlobsLoop env files).2, callOk env c = true) ∧
    ((∀ ct, ∃ s, env.createBlob ct = .ok s) →
      (createBlobsLoop env files).2 = files.map (fun f => .createBlob f.content) ∧
      ∃ v, (createBlobsLoop env files).1 = .ok v) := by
  intro files
  induction files with
  | nil => exact ⟨by simp [createBlobsLoop], by simp [createBlobsLoop],
      by simp [createBlobsLoop], by simp [createBlobsLoop]⟩
  | cons f fs ih =>
    cases hcb : env.createBlob f.content with
    | error e =>
      simp only [createBlobsLoop, hcb]
      refine ⟨?_, by simp, by simp, ?_⟩
      · intro c hc
        rw [List.mem_singleton] at hc
        subst hc
        rfl
      · intro htot
        obtain ⟨s, hs⟩ := htot f.content
        rw [hcb] at hs
        exact absurd hs (by simp)
    | ok sha =>
      rcases hrec : createBlobsLoop env fs with ⟨r, t⟩
      rw [hrec] at ih
      cases r with
      | error e =>
        simp only [createBlobsLoop, hcb, hrec]
        refine ⟨?_, ?_, by simp, ?_⟩
        · intro c hc
          rcases List.mem_cons.mp hc with h | h
          · subst h; rfl
          · exact ih.1 c h
        · intro c hc
          rcases mem_dropLast_cons hc with h | h
          · subst h; simp [callOk, hcb, Except.isOk, Except.toBool]
          · exact ih.2.1 c h
        · intro htot
          obtain ⟨v, hv⟩ := (ih.2.2.2 htot).2
          exact absurd hv (by simp)
      | ok entries =>
        simp only [createBlobsLoop, hcb, hrec]
        refine ⟨?_, ?_, ?_, ?_⟩
        · intro c hc
          rcases List.mem_cons.mp hc with h | h
          · subst h; rfl
          · exact ih.1 c h
        · intro c hc
          rcases mem_dropLast_cons hc with h | h
          · subst h; simp [callOk, hcb, Except.isOk, Except.toBool]
          · exact ih.2.1 c h
        · intro _ c hc
          rcases List.mem_cons.mp hc with h | h
          · subst h; simp [callOk, hcb, Except.isOk, Except.toBool]
          · exact ih.2.2.1 ⟨entries, rfl⟩ c h
        · intro htot
          exact ⟨congrArg (List.cons _) (ih.2.2.2 htot).1, _, rfl⟩

/-- Calls that `createMultipleFiles` may make. -/
def isCMFCall : GHCall → Bool
  | .getRef _ => true
  | .getCommit _ => true
  | .createBlob _ => true
  | .createTree _ _ => true
  | .createCommit _ _ _ => true
  | .updateRef _ _ => true
  | _ => false

theorem cmfCall_classification (c : GHCall) (h : isCMFCall c = true) :
    isDeleteBranchCall c = false ∧ isFileExistsCall c = false ∧
    isCreateBranchCall c = false ∧ isCreatePRCall c = false ∧ isMergeCall c = false := by
  cases c <;> simp_all [isCMFCall, isDeleteBranchCall, isFileExistsCall,
    isCreateBranchCall, isCreatePRCall, isMergeCall]

theorem blobCall_isCMF (c : GHCall) (h : isCreateBlobCall c = true) : isCMFCall c = true := by
  cases c <;> simp_all [isCreateBlobCall, isCMFCall]

theorem createMultipleFiles_spec (env : Oracle) (files : List FileContent)
    (branch commitMessage : String) :
    (∀ c ∈ (createMultipleFiles env files branch commitMessage).2, isCMFCall c = true) ∧
    (∀ c ∈ (createMultipleFiles env files branch commitMessage).2.dropLast,
      callOk env c = true) ∧
    ((∃ v, (createMultipleFiles env files branch commitMessage).1 = .ok v) →
      ∀ c ∈ (createMultipleFiles env files branch commitMessage).2, callOk env c = true) ∧
    ((∀ e, (createMultipleFiles env files branch commitMessage).1 = .error e →
      ∃ e0, e = "Failed to create multiple files: " ++ e0)) ∧
    (OracleTotal env →
      (createMultipleFiles env files branch commitMessage).2.countP isCreateCommitCall = 1 ∧
      (createMultipleFiles env files branch commitMessage).2.countP isUpdateRefCall = 1 ∧
      (createMultipleFiles env files branch commitMessage).2.countP isCreateBlobCall
        = files.length ∧
      ∃ v, (createMultipleFiles env files branch commitMessage).1 = .ok v) := by
  have hblob := createBlobsLoop_spec env files
  cases hgr : env.getRef branch with
  | error e =>
    simp only [createMultipleFiles, hgr]
    refine ⟨?_, by simp, by simp, ?_, ?_⟩
    · intro c hc; rw [List.mem_singleton] at hc; subst hc; rfl
    · intro e2 he2
      exact ⟨e, by simpa using he2.symm⟩
    · intro htot
      obtain ⟨s, hs⟩ := htot.getRef branch
      rw [hgr] at hs
      exact absurd hs (by simp)
  | ok ccs =>
    cases hgc : env.getCommit ccs with
    | error e =>
      simp only [createMultipleFiles, hgr, hgc]
      refine ⟨?_, ?_, by simp, ?_, ?_⟩
      · intro c hc
        rcases List.mem_cons.mp hc with h | h
        · subst h; rfl
        · rw [List.mem_singleton] at h; subst h; rfl
      · intro c hc
        rcases mem_dropLast_cons hc with h | h
        · subst h; simp [callOk, hgr, Except.isOk, Except.toBool]
        · simp at h
      · intro e2 he2
        exact ⟨e, by simpa using he2.symm⟩
      · intro htot
        obtain ⟨s, hs⟩ := htot.getCommit ccs
        rw [hgc] at hs
        exact absurd hs (by simp)
    | ok cts =>
      rcases hbl : createBlobsLoop env files with ⟨br, bt⟩
      rw [hbl] at hblob
      cases br with
      | error e =>
        simp only [createMultipleFiles, hgr, hgc, hbl]
        refine ⟨?_, ?_, by simp, ?_, ?_⟩
        · intro c hc
          rcases List.mem_cons.mp hc with h | h
          · subst h; rfl
          · rcases List.mem_cons.mp h with h2 | h2
            · subst h2; rfl
            · exact blobCall_isCMF c (hblob.1 c h2)
        · intro c hc
          rcases mem_dropLast_cons hc with h | h
          · subst h; simp [callOk, hgr, Except.isOk, Except.toBool]
          · rcases mem_dropLast_cons h with h2 | h2
            · subst h2; simp [callOk, hgc, Except.isOk, Except.toBool]
            · exact hblob.2.1 c h2
        · intro e2 he2
          exact ⟨e, by simpa using he2.symm⟩
        · intro htot
          obtain ⟨v, hv⟩ := (hblob.2.2.2 (fun ct => htot.createBlob ct)).2
          exact absurd hv (by simp)
      | ok entries =>
        cases hct : env.createTree entries cts with
        | error e =>
          simp only [createMultipleFiles, hgr, hgc, hbl, hct]
          refine ⟨?_, ?_, by simp, ?_, ?_⟩
          · intro c hc
            rcases List.mem_cons.mp hc with h | h
            · subst h; rfl
            · rcases List.mem_cons.mp h with h2 | h2
              · subst h2; rfl
              · rcases List.mem_append.mp h2 with h3 | h3
                · exact blobCall_isCMF c (hblob.1 c h3)
                · rw [List.mem_singleton] at h3; subst h3; rfl
          · intro c hc
            rcases mem_dropLast_cons hc with h | h
            · subst h; simp [callOk, hgr, Except.isOk, Except.toBool]
            · rcases mem_dropLast_cons h with h2 | h2
              · subst h2; simp [callOk, hgc, Except.isOk, Except.toBool]
              · rw [List.append_eq, List.dropLast_concat] at h2
                exact hblob.2.2.1 ⟨entries, rfl⟩ c h2
          · intro e2 he2
            exact ⟨e, by simpa using he2.symm⟩
          · intro htot
            obtain ⟨s, hs⟩ := htot.createTree entries cts
            rw [hct] at hs
            exact absurd hs (by simp)
        | ok nts =>
          cases hcc : env.createCommit commitMessage nts [ccs] with
          | error e =>
            simp only [createMultipleFiles, hgr, hgc, hbl, hct, hcc]
            refine ⟨?_, ?_, by simp, ?_, ?_⟩
            · intro c hc
              rcases List.mem_cons.mp hc with h | h
              · subst h; rfl
              · rcases List.mem_cons.mp h with h2 | h2
                · subst h2; rfl
                · rcases List.mem_append.mp h2 with h3 | h3
                  · exact blobCall_isCMF c (hblob.1 c h3)
                  · rcases List.mem_cons.mp h3 with h4 | h4
                    · subst h4; rfl
                    · rw [List.mem_singleton] at h4; subst h4; rfl
            · intro c hc
              rcases mem_dropLast_cons hc with h | h
              · subst h; simp [callOk, hgr, Except.isOk, Except.toBool]
              · rcases mem_dropLast_cons h with h2 | h2
                · subst h2; simp [callOk, hgc, Except.isOk, Except.toBool]
                · rw [List.append_eq,
                    show ([GHCall.createTree entries cts,
                      GHCall.createCommit commitMessage nts [ccs]] : List GHCall) =
                      [GHCall.createTree entries cts] ++
                      [GHCall.createCommit commitMessage nts [ccs]] from rfl,
                    ← List.append_assoc, List.dropLast_concat] at h2
                  rcases List.mem_append.mp h2 with h3 | h3
                  · exact hblob.2.2.1 ⟨entries, rfl⟩ c h3
                  · rw [List.mem_singleton] at h3; subst h3
                    simp [callOk, hct, Except.isOk, Except.toBool]
            · intro e2 he2
              exact ⟨e, by simpa using he2.symm⟩
            · intro htot
              obtain ⟨s, hs⟩ := htot.createCommit commitMessage nts [ccs]
              rw [hcc] at hs
              exact absurd hs (by simp)
          | ok ncs =>
            cases hur : env.updateRef branch ncs with
            | error e =>
              simp only [createMultipleFiles, hgr, hgc, hbl, hct, hcc, hur]
              refine ⟨?_, ?_, by simp, ?_, ?_⟩
              · intro c hc
                rcases List.mem_cons.mp hc with h | h
                · subst h; rfl
                · rcases List.mem_cons.mp h with h2 | h2
                  · subst h2; rfl
                  · rcases List.mem_append.mp h2 with h3 | h3
                    · exact blobCall_isCMF c (hblob.1 c h3)
                    · rcases List.mem_cons.mp h3 with h4 | h4
                      · subst h4; rfl
                      · rcases List.mem_cons.mp h4 with h5 | h5
                        · subst h5; rfl
                        · rw [List.mem_singleton] at h5; subst h5; rfl
              · intro c hc
                rcases mem_dropLast_cons hc with h | h
                · subst h; simp [callOk, hgr, Except.isOk, Except.toBool]
                · rcases mem_dropLast_cons h with h2 | h2
                  · subst h2; simp [callOk, hgc, Except.isOk, Except.toBool]
                  · rw [List.append_eq,
                      show ([GHCall.createTree entries cts,
                        GHCall.createCommit commitMessage nts [ccs],
                        GHCall.updateRef branch ncs] : List GHCall) =
                        [GHCall.createTree entries cts,
                         GHCall.createCommit commitMessage nts [ccs]] ++
                        [GHCall.updateRef branch ncs] from rfl,
                      ← List.append_assoc, List.dropLast_concat] at h2
                    rcases List.mem_append.mp h2 with h3 | h3
                    · exact hblob.2.2.1 ⟨entries, rfl⟩ c h3
                    · rcases List.mem_cons.mp h3 with h4 | h4
                      · subst h4; simp [callOk, hct, Except.isOk, Except.toBool]
                      · rw [List.mem_singleton] at h4; subst h4
                        simp [callOk, hcc, Except.isOk, Except.toBool]
              · intro e2 he2
                exact ⟨e, by simpa using he2.symm⟩
              · intro htot
                have hs := htot.updateRef branch ncs
                rw [hur] at hs
                exact absurd hs (by simp)
            | ok uu =>
              simp only [createMultipleFiles, hgr, hgc, hbl, hct, hcc, hur]
              refine ⟨?_, ?_, ?_, ?_, ?_⟩
              · intro c hc
                rcases List.mem_cons.mp hc with h | h
                · subst h; rfl
                · rcases List.mem_cons.mp h with h2 | h2
                  · subst h2; rfl
                  · rcases List.mem_append.mp h2 with h3 | h3
                    · exact blobCall_isCMF c (hblob.1 c h3)
                    · rcases List.mem_cons.mp h3 with h4 | h4
                      · subst h4; rfl
                      · rcases List.mem_cons.mp h4 with h5 | h5
                        · subst h5; rfl
                        · rw [List.mem_singleton] at h5; subst h5; rfl
              · intro c hc
                rcases mem_dropLast_cons hc with h | h
                · subst h; simp [callOk, hgr, Except.isOk, Except.toBool]
                · rcases mem_dropLast_cons h with h2 | h2
                  · subst h2; simp [callOk, hgc, Except.isOk, Except.toBool]
                  · rw [List.append_eq,
                      show ([GHCall.createTree entries cts,
                        GHCall.createCommit commitMessage nts [ccs],
                        GHCall.updateRef branch ncs] : List GHCall) =
                        [GHCall.createTree entries cts,
                         GHCall.createCommit commitMessage nts [ccs]] ++
                        [GHCall.updateRef branch ncs] from rfl,
                      ← List.append_assoc, List.dropLast_concat] at h2
                    rcases List.mem_append.mp h2 with h3 | h3
                    · exact hblob.2.2.1 ⟨entries, rfl⟩ c h3
                    · rcases List.mem_cons.mp h3 with h4 | h4
                      · subst h4; simp [callOk, hct, Except.isOk, Except.toBool]
                      · rw [List.mem_singleton] at h4; subst h4
                        simp [callOk, hcc, Except.isOk, Except.toBool]
              · intro _ c hc
                rcases List.mem_cons.mp hc with h | h
                · subst h; simp [callOk, hgr, Except.isOk, Except.toBool]
                · rcases List.mem_cons.mp h with h2 | h2
                  · subst h2; simp [callOk, hgc, Except.isOk, Except.toBool]
                  · rcases List.mem_append.mp h2 with h3 | h3
                    · exact hblob.2.2.1 ⟨entries, rfl⟩ c h3
                    · rcases List.mem_cons.mp h3 with h4 | h4
                      · subst h4; simp [callOk, hct, Except.isOk, Except.toBool]
                      · rcases List.mem_cons.mp h4 with h5 | h5
                        · subst h5; simp [callOk, hcc, Except.isOk, Except.toBool]
                        · rw [List.mem_singleton] at h5; subst h5
                          simp [callOk, hur, Except.isOk, Except.toBool]
              · intro e2 he2
                exact absurd he2 (by simp)
              · intro htot
                have hmap2 : bt = files.map (fun f => GHCall.createBlob f.content) := by
                  simpa using (hblob.2.2.2 (fun ct => htot.createBlob ct)).1
                subst hmap2
                refine ⟨?_, ?_, ?_, ?_⟩ <;>
                  simp [List.countP_cons, List.countP_append, List.countP_map,
                    Function.comp, isCreateCommitCall, isUpdateRefCall, isCreateBlobCall]


/-- Behaviour of `publishMultipleBlogsInSinglePR` for every oracle: calls are
the batch branch call, multi-file-commit primitives, one PR call or stage
calls; failures carry the batch catch-block message and an error string; on
success every non-merge call succeeded; on an all-successful oracle the trace
has exactly one branch creation, one blob per post, one commit, one ref
update and one PR creation. -/
theorem singlePR_spec (env : Oracle) (cp : String) (blogs : List BlogInput)
    (prTitle : String) (options : Option PublishOptions) (ts : Nat) :
    (∀ c ∈ (publishMultipleBlogsInSinglePR env cp blogs prTitle options ts).2,
      c = .createBranch ("blog/batch-" ++ Nat.repr ts) (resolveBaseBranch options) ∨
      isCMFCall c = true ∨ isCreatePRCall c = true ∨ isStageCall c = true) ∧
    ((publishMultipleBlogsInSinglePR env cp blogs prTitle options ts).1.success = false →
      (publishMultipleBlogsInSinglePR env cp blogs prTitle options ts).1.message =
        "Failed to publish batch of blog posts" ∧
      (publishMultipleBlogsInSinglePR env cp blogs prTitle options ts).1.error.isSome = true) ∧
    ((publishMultipleBlogsInSinglePR env cp blogs prTitle options ts).1.success = true →
      ∀ c ∈ (publishMultipleBlogsInSinglePR env cp blogs prTitle options ts).2,
        isMergeCall c = false → callOk env c = true) ∧
    (OracleTotal env →
      (publishMultipleBlogsInSinglePR env cp blogs prTitle options ts).2.countP
        isCreateBranchCall = 1 ∧
      (publishMultipleBlogsInSinglePR env cp blogs prTitle options ts).2.countP
        isCreateBlobCall = blogs.length ∧
      (publishMultipleBlogsInSinglePR env cp blogs prTitle options ts).2.countP
        isCreateCommitCall = 1 ∧
      (publishMultipleBlogsInSinglePR env cp blogs prTitle options ts).2.countP
        isUpdateRefCall = 1 ∧
      (publishMultipleBlogsInSinglePR env cp blogs prTitle options ts).2.countP
        isCreatePRCall = 1) := by
  have hcmf := createMultipleFiles_spec env (batchFiles cp blogs)
    ("blog/batch-" ++ Nat.repr ts)
    ("feat: Add " ++ Nat.repr blogs.length ++ " new blog post(s)")
  cases hb : env.createBranch ("blog/batch-" ++ Nat.repr ts) (resolveBaseBranch options) with
  | error e =>
    simp only [publishMultipleBlogsInSinglePR, hb]
    refine ⟨?_, by simp [mkFailResult], by simp [mkFailResult], ?_⟩
    · intro c hc
      rw [List.mem_singleton] at hc
      exact Or.inl hc
    · intro htot
      obtain ⟨r, hr⟩ := htot.createBranch ("blog/batch-" ++ Nat.repr ts)
        (resolveBaseBranch options)
      rw [hb] at hr
      exact absurd hr (by simp)
  | ok cb =>
    rcases hcm : createMultipleFiles env (batchFiles cp blogs)
        ("blog/batch-" ++ Nat.repr ts)
        ("feat: Add " ++ Nat.repr blogs.length ++ " new blog post(s)") with ⟨cr, t2⟩
    rw [hcm] at hcmf
    cases cr with
    | error e =>
      simp only [publishMultipleBlogsInSinglePR, hb, hcm]
      refine ⟨?_, ?_, by simp [mkFailResult], ?_⟩
      · intro c hc
        rcases List.mem_cons.mp hc with h | h
        · exact Or.inl h
        · exact Or.inr (Or.inl (hcmf.1 c h))
      · intro _
        exact ⟨rfl, by simp [mkFailResult]⟩
      · intro htot
        obtain ⟨v, hv⟩ := (hcmf.2.2.2.2 htot).2.2.2
        exact absurd hv (by simp)
    | ok cu =>
      cases hpc : env.createPullRequest
          (if prTitle = "" then "📝 New Blog Posts (" ++ Nat.repr blogs.length ++ ")"
           else prTitle)
          (generateBatchPRBody blogs)
          ("blog/batch-" ++ Nat.repr ts) (resolveBaseBranch options) with
      | error e =>
        simp only [publishMultipleBlogsInSinglePR, hb, hcm, hpc]
        refine ⟨?_, by simp [mkFailResult], by simp [mkFailResult], ?_⟩
        · intro c hc
          rcases List.mem_cons.mp hc with h | h
          · exact Or.inl h
          · rcases List.mem_append.mp h with h2 | h2
            · exact Or.inr (Or.inl (hcmf.1 c h2))
            · rw [List.mem_singleton] at h2
              subst h2
              exact Or.inr (Or.inr (Or.inl rfl))
        · intro htot
          obtain ⟨pr, hpr⟩ := htot.createPullRequest
            (if prTitle = "" then "📝 New Blog Posts (" ++ Nat.repr blogs.length ++ ")"
             else prTitle)
            (generateBatchPRBody blogs)
            ("blog/batch-" ++ Nat.repr ts) (resolveBaseBranch options)
          rw [hpc] at hpr
          exact absurd hpr (by simp)
      | ok pr =>
        have hstage := labelsStage_spec env options pr
          ("Auto-merge: " ++ prTitle)
          ("Automatically merged batch of " ++ Nat.repr blogs.length ++
            " blog posts: " ++ prTitle)
          "Failed to publish batch of blog posts"
          (batchSuccess blogs ts pr)
          (fun m => rfl)
        simp only [publishMultipleBlogsInSinglePR, hb, hcm, hpc]
        refine ⟨?_, ?_, ?_, ?_⟩
        · intro c hc
          rcases List.mem_cons.mp hc with h | h
          · exact Or.inl h
          · rcases List.mem_append.mp h with h2 | h2
            · exact Or.inr (Or.inl (hcmf.1 c h2))
            · rcases List.mem_cons.mp h2 with h3 | h3
              · subst h3
                exact Or.inr (Or.inr (Or.inl rfl))
              · exact Or.inr (Or.inr (Or.inr (hstage.2.2.1 c h3)))
        · exact hstage.2.1
        · intro hs c hc hnm
          rcases List.mem_cons.mp hc with h | h
          · subst h; simp [callOk, hb, Except.isOk, Except.toBool]
          · rcases List.mem_append.mp h with h2 | h2
            · exact hcmf.2.2.1 ⟨cu, rfl⟩ c h2
            · rcases List.mem_cons.mp h2 with h3 | h3
              · subst h3; simp [callOk, hpc, Except.isOk, Except.toBool]
              · exact hstage.2.2.2 hs c h3 hnm
        · intro htot
          have hcounts := hcmf.2.2.2.2 htot
          have hzero : ∀ p : GHCall → Bool,
              (∀ c, isStageCall c = true → p c = false) →
              (labelsStage env options pr
                ("Auto-merge: " ++ prTitle)
                ("Automatically merged batch of " ++ Nat.repr blogs.length ++
                  " blog posts: " ++ prTitle)
                "Failed to publish batch of blog posts"
                (batchSuccess blogs ts pr)).2.countP p = 0 := by
            intro p hp
            rw [List.countP_eq_zero]
            intro a ha
            simp [hp a (hstage.2.2.1 a ha)]
          have hzcmf : ∀ p : GHCall → Bool,
              (∀ c, isCMFCall c = true → p c = false) → t2.countP p = 0 := by
            intro p hp
            rw [List.countP_eq_zero]
            intro a ha
            simp [hp a (hcmf.1 a ha)]
          have hlen : (batchFiles cp blogs).length = blogs.length := by
            simp [batchFiles]
          refine ⟨?_, ?_, ?_, ?_, ?_⟩
          · have h3 := hzero _ (fun c hc => (stageCall_classification c hc).2.2.2.2.2.1)
            have h2 := hzcmf _ (fun c hc => (cmfCall_classification c hc).2.2.1)
            simp [List.countP_cons, List.countP_append, h3, h2, isCreateBranchCall]
          · have h3 := hzero _ (fun c hc => (stageCall_classification c hc).2.2.2.1)
            simp [List.countP_cons, List.countP_append, h3, hcounts.2.2.1, hlen,
              isCreateBlobCall]
          · have h3 := hzero _ (fun c hc => (stageCall_classification c hc).2.2.1)
            simp [List.countP_cons, List.countP_append, h3, hcounts.1, isCreateCommitCall]
          · have h3 := hzero _ (fun c hc => (stageCall_classification c hc).2.2.2.2.1)
            simp [List.countP_cons, List.countP_append, h3, hcounts.2.1, isUpdateRefCall]
          · have h3 := hzero _ (fun c hc => (stageCall_classification c hc).2.2.2.2.2.2)
            have h2 := hzcmf _ (fun c hc => (cmfCall_classification c hc).2.2.2.1)
            simp [List.countP_cons, List.countP_append, h3, h2, isCreatePRCall]

/-- Separate mode publishes each post independently: the i-th result is
exactly the result of `publishBlog` on the i-th blog with its own timestamp,
regardless of earlier failures. -/
theorem publishMultipleBlogsGo_spec (env : Oracle) (cp : String)
    (options : Option PublishOptions) (tsf : Nat → Nat) :
    ∀ (blogs : List BlogInput) (i : Nat),
      (publishMultipleBlogsGo env cp options tsf i blogs).1.length = blogs.length ∧
      (∀ j : Nat, (publishMultipleBlogsGo env cp options tsf i blogs).1[j]? =
        (blogs[j]?).map (fun b => (publishBlog env cp b options (tsf (i + j))).1)) := by
  intro blogs
  induction blogs with
  | nil => intro i; exact ⟨rfl, fun j => by simp [publishMultipleBlogsGo]⟩
  | cons b bs ih =>
    intro i
    constructor
    · simp only [publishMultipleBlogsGo]
      simpa using (ih (i + 1)).1
    · intro j
      cases j with
      | zero =>
        simp [publishMultipleBlogsGo]
      | succ j =>
        have := (ih (i + 1)).2 j
        simp only [publishMultipleBlogsGo]
        show ((publishBlog env cp b options (tsf i)).1 ::
          (publishMultipleBlogsGo env cp options tsf (i + 1) bs).1)[j + 1]? = _
        rw [List.getElem?_cons_succ, this]
        have harith : i + 1 + j = i + (j + 1) := by omega
        rw [harith, List.getElem?_cons_succ]

/-- `publishBlog` call counts on an all-successful oracle: one branch
creation, one PR creation, no commit primitives. -/
theorem publishBlog_counts_total (env : Oracle) (cp : String) (blog : BlogInput)
    (options : Option PublishOptions) (ts : Nat) (htot : OracleTotal env) :
    (publishBlog env cp blog options ts).2.countP isCreateBranchCall = 1 ∧
    (publishBlog env cp blog options ts).2.countP isCreatePRCall = 1 ∧
    (publishBlog env cp blog options ts).2.countP isCreateCommitCall = 0 := by
  obtain ⟨cb, hb⟩ := htot.createBranch (publishBranchName blog ts) (resolveBaseBranch options)
  have hf := htot.createOrUpdateFile (cp ++ "/" ++ (generateSlug blog.title ++ ".md"))
    (convertJsonToMarkdown blog)
    ("feat: Add new blog post \"" ++ blog.title ++ "\"")
    (publishBranchName blog ts)
  obtain ⟨pr, hpc⟩ := htot.createPullRequest ("📝 New Blog Post: " ++ blog.title)
    (generatePRBody blog (generateSlug blog.title))
    (publishBranchName blog ts) (resolveBaseBranch options)
  have hstage := labelsStage_spec env options pr
    ("Auto-merge: " ++ blog.title)
    ("Automatically merged blog post: " ++ blog.title)
    "Failed to publish blog post"
    (publishBlogSuccess blog ts pr)
    (fun m => rfl)
  have hzero : ∀ p : GHCall → Bool,
      (∀ c, isStageCall c = true → p c = false) →
      (labelsStage env options pr
        ("Auto-merge: " ++ blog.title)
        ("Automatically merged blog post: " ++ blog.title)
        "Failed to publish blog post"
        (publishBlogSuccess blog ts pr)).2.countP p = 0 := by
    intro p hp
    rw [List.countP_eq_zero]
    intro a ha
    simp [hp a (hstage.2.2.1 a ha)]
  simp only [publishBlog, hb, hf, hpc]
  refine ⟨?_, ?_, ?_⟩
  · have h3 := hzero _ (fun c hc => (stageCall_classification c hc).2.2.2.2.2.1)
    simp [List.countP_cons, h3, isCreateBranchCall, isCreatePRCall]
  · have h3 := hzero _ (fun c hc => (stageCall_classification c hc).2.2.2.2.2.2)
    simp [List.countP_cons, h3, isCreateBranchCall, isCreatePRCall]
  · have h3 := hzero _ (fun c hc => (stageCall_classification c hc).2.2.1)
    simp [List.countP_cons, h3, isCreateCommitCall]

/-- Separate-mode call counts on an all-successful oracle: one branch and
one PR per post, no commit primitives. -/
theorem publishMultipleBlogsGo_counts (env : Oracle) (cp : String)
    (options : Option PublishOptions) (tsf : Nat → Nat) (htot : OracleTotal env) :
    ∀ (blogs : List BlogInput) (i : Nat),
      (publishMultipleBlogsGo env cp options tsf i blogs).2.countP isCreateBranchCall
        = blogs.length ∧
      (publishMultipleBlogsGo env cp options tsf i blogs).2.countP isCreatePRCall
        = blogs.length ∧
      (publishMultipleBlogsGo env cp options tsf i blogs).2.countP isCreateCommitCall = 0 := by
  intro blogs
  induction blogs with
  | nil => intro i; simp [publishMultipleBlogsGo]
  | cons b bs ih =>
    intro i
    have hone := publishBlog_counts_total env cp b options (tsf i) htot
    have htail := ih (i + 1)
    simp only [publishMultipleBlogsGo]
    refine ⟨?_, ?_, ?_⟩ <;>
      simp [List.countP_append, hone.1, hone.2.1, hone.2.2, htail.1, htail.2.1, htail.2.2,
        List.length_cons, Nat.add_comm]

/-- An oracle on which every provider call succeeds, used as a witness
environment. -/
def okOracle : Oracle :=
  { createBranch := fun b _ => .ok { branchName := b, sha := "base-sha" },
    createOrUpdateFile := fun _ _ _ _ => .ok (),
    getRef := fun _ => .ok "head-sha",
    getCommit := fun _ => .ok "tree-sha",
    createBlob := fun _ => .ok "blob-sha",
    createTree := fun _ _ => .ok "new-tree-sha",
    createCommit := fun _ _ _ => .ok "new-commit-sha",
    updateRef := fun _ _ => .ok (),
    createPullRequest := fun t _ _ _ =>
      .ok { number := 7, url := "https://example.test/pr/7", title := t },
    addLabels := fun _ _ => .ok (),
    addReviewers := fun _ _ => .ok (),
    mergePullRequest := fun _ _ _ => .ok { merged := true, sha := "merge-sha", message := "ok" },
    fileExists := fun _ _ => false,
    listFiles := fun _ _ => .ok [],
    deleteBranch := fun _ => .ok () }

theorem okOracle_total : OracleTotal okOracle := by
  constructor <;> intros <;> first
    | rfl
    | exact ⟨_, rfl⟩

/-- C7: for every valid request (configured environment, nonempty array of
valid blog objects) on an all-successful provider, a mode field that is not
exactly the string `separate` (including an absent one) publishes in batch
mode — exactly one branch creation, one blob per post, one commit, one ref
update and one pull request — while mode `separate` produces one branch
creation and one pull request per post (and no commit primitives). -/
theorem C7_mode_dispatch (env : Oracle) (cfg : EnvConfig) (body : JsValue)
    (es : List JsValue) (tsf : Nat → Nat) (bts : Nat)
    (htot : OracleTotal env)
    (hcfg : configured cfg = true)
    (hblogs : getField body "blogs" = .ok (.arr es))
    (hne : es ≠ [])
    (hval : validateLoop es 0 = .ok none) :
    (isSeparateMode (jsGet body "mode") = false →
      (publishBlogPOST env cfg body tsf bts).2.countP isCreateBranchCall = 1 ∧
      (publishBlogPOST env cfg body tsf bts).2.countP isCreateBlobCall = es.length ∧
      (publishBlogPOST env cfg body tsf bts).2.countP isCreateCommitCall = 1 ∧
      (publishBlogPOST env cfg body tsf bts).2.countP isUpdateRefCall = 1 ∧
      (publishBlogPOST env cfg body tsf bts).2.countP isCreatePRCall = 1) ∧
    (isSeparateMode (jsGet body "mode") = true →
      (publishBlogPOST env cfg body tsf bts).2.countP isCreateBranchCall = es.length ∧
      (publishBlogPOST env cfg body tsf bts).2.countP isCreatePRCall = es.length ∧
      (publishBlogPOST env cfg body tsf bts).2.countP isCreateCommitCall = 0) := by
  have hlen0 : ¬ es.length = 0 := by simpa using hne
  constructor
  · intro hmode
    simp only [publishBlogPOST, hcfg, hblogs, hval, if_neg hlen0, hmode,
      Bool.false_eq_true, if_false]
    have hcounts := (singlePR_spec env "content/posts" (es.map toBlogInput)
      (match jsGet body "batchTitle" with
        | .str s => if s = "" then "New Blog Posts (" ++ Nat.repr es.length ++ ")" else s
        | _ => "New Blog Posts (" ++ Nat.repr es.length ++ ")")
      (toPublishOptions (jsGet body "options")) bts).2.2.2 htot
    simpa [List.length_map] using hcounts
  · intro hmode
    simp only [publishBlogPOST, hcfg, hblogs, hval, if_neg hlen0, hmode, if_true]
    have hcounts := publishMultipleBlogsGo_counts env "content/posts"
      (toPublishOptions (jsGet body "options")) tsf htot (es.map toBlogInput) 0
    simpa [publishMultipleBlogs, List.length_map] using hcounts

/-- A valid blog element as the route receives it. -/
def blogJs : JsValue :=
  .obj [("title", .str "Hi"), ("description", .str "D"), ("author", .str "A"),
        ("date", .str "2025-01-01"), ("content", .str "Body")]

/-- A configured environment. -/
def cfg0 : EnvConfig :=
  { githubToken := some "t", githubOwner := some "o", githubRepo := some "r" }

/-- Witness for C7: a concrete valid one-post request without a mode field
is published in batch mode with exactly one branch, one blob, one commit,
one ref update and one pull request. -/
theorem C7_mode_dispatch_witness :
    (publishBlogPOST okOracle cfg0 (.obj [("blogs", .arr [blogJs])])
      (fun i => i) 5).2.countP isCreateBranchCall = 1 ∧
    (publishBlogPOST okOracle cfg0 (.obj [("blogs", .arr [blogJs])])
      (fun i => i) 5).2.countP isCreateBlobCall = 1 ∧
    (publishBlogPOST okOracle cfg0 (.obj [("blogs", .arr [blogJs])])
      (fun i => i) 5).2.countP isCreateCommitCall = 1 ∧
    (publishBlogPOST okOracle cfg0 (.obj [("blogs", .arr [blogJs])])
      (fun i => i) 5).2.countP isUpdateRefCall = 1 ∧
    (publishBlogPOST okOracle cfg0 (.obj [("blogs", .arr [blogJs])])
      (fun i => i) 5).2.countP isCreatePRCall = 1 :=
  (C7_mode_dispatch okOracle cfg0 (.obj [("blogs", .arr [blogJs])]) [blogJs]
    (fun i => i) 5 okOracle_total rfl rfl (by simp) rfl).1 rfl

/-- C10: a `blogs` element that is `null` makes `validateBlogInput` throw a
TypeError on the first field read, so the endpoint answers with the generic
500 catch-all response, while an object-shaped invalid element gets the 400
validation response. -/
theorem C10_null_element_500 :
    validateBlogInput JsValue.null =
      .error "Cannot read properties of null (reading 'title')" ∧
    (publishBlogPOST okOracle cfg0 (.obj [("blogs", .arr [.null])]) (fun i => i) 5).1 =
      { status := 500, body := .caught "Cannot read properties of null (reading 'title')" } ∧
    (publishBlogPOST okOracle cfg0 (.obj [("blogs", .arr [.obj []])]) (fun i => i) 5).1 =
      { status := 400, body := .invalidBlogAt 0 } :=
  ⟨rfl, rfl, rfl⟩

/-- Small concrete blog inputs for counterexamples and witnesses. -/
def blogA : BlogInput :=
  { title := "a", description := "d", author := "au", date := "2025-01-01",
    published := none, content := "x" }

def blogB : BlogInput :=
  { title := "b", description := "d", author := "au", date := "2025-01-01",
    published := none, content := "y" }

/-- An oracle that fails branch creation exactly for blog `a`'s first
branch and succeeds everywhere else. -/
def envFailA : Oracle :=
  { okOracle with
    createBranch := fun b _ =>
      if b = "blog/a-1" then .error "boom"
      else .ok { branchName := b, sha := "base-sha" } }

/-- C3 counterexample: in separate mode, after the first post fails (its
branch creation is rejected), the second post is still published
successfully — the loop does not stop at the failure. -/
theorem C3_separate_mode_counterexample :
    ((publishMultipleBlogs envFailA "content/posts" [blogA, blogB] none
        (fun i => i + 1)).1.map PublishResult.success) = [false, true] := by
  decide

/-- C3 (amended): within one `publishBlog` invocation every provider call
before the last one succeeded (the first failure aborts the rest) and a
failed result reports the failure message and error string synchronously; in
separate mode, however, a failure does not stop the loop — every post is
attempted and the i-th result is exactly `publishBlog` of the i-th post. -/
theorem C3_failure_handling_amended (env : Oracle) (cp : String) (blog : BlogInput)
    (options : Option PublishOptions) (ts : Nat) (blogs : List BlogInput)
    (tsf : Nat → Nat) :
    (∀ c ∈ (publishBlog env cp blog options ts).2.dropLast, callOk env c = true) ∧
    ((publishBlog env cp blog options ts).1.success = false →
      (publishBlog env cp blog options ts).1.message = "Failed to publish blog post" ∧
      (publishBlog env cp blog options ts).1.error.isSome = true) ∧
    (publishMultipleBlogs env cp blogs options tsf).1.length = blogs.length ∧
    (∀ j : Nat, (publishMultipleBlogs env cp blogs options tsf).1[j]? =
      (blogs[j]?).map (fun b => (publishBlog env cp b options (tsf j)).1)) := by
  have hflow := publishBlog_flow_spec env cp blog options ts
  have hgo := publishMultipleBlogsGo_spec env cp options tsf blogs 0
  refine ⟨hflow.1, hflow.2.1, ?_, ?_⟩
  · simpa [publishMultipleBlogs] using hgo.1
  · intro j
    have := hgo.2 j
    simpa [publishMultipleBlogs] using this

/-- Witness for C3. -/
theorem C3_failure_handling_amended_witness :
    callOk okOracle (publishCB blogA none 1) = true ∧
    ((publishBlog envFailA "content/posts" blogA none 1).1.message =
      "Failed to publish blog post" ∧
     (publishBlog envFailA "content/posts" blogA none 1).1.error.isSome = true) ∧
    (publishMultipleBlogs envFailA "content/posts" [blogA, blogB] none
      (fun i => i + 1)).1[1]? =
      some (publishBlog envFailA "content/posts" blogB none 2).1 := by
  refine ⟨?_, ?_, ?_⟩
  · exact (C3_failure_handling_amended okOracle "content/posts" blogA none 1 [] (fun i => i)).1
      (publishCB blogA none 1) (by decide)
  · exact (C3_failure_handling_amended envFailA "content/posts" blogA none 1 [] (fun i => i)).2.1
      (by decide)
  · have := (C3_failure_handling_amended envFailA "content/posts" blogA none 1
      [blogA, blogB] (fun i => i + 1)).2.2.2 1
    simpa using this

theorem prCall_not_deleteBranch (c : GHCall) (h : isCreatePRCall c = true) :
    isDeleteBranchCall c = false := by
  cases c <;> simp_all [isCreatePRCall, isDeleteBranchCall]

/-- C5: no rollback ever happens — neither publish path ever invokes the
branch-deletion provider call — and when branch creation succeeded but the
subsequent file creation or PR creation fails, `publishBlog` returns a
failure result (with the wrapped error) while the created branch persists. -/
theorem C5_no_rollback (env : Oracle) (cp : String) (blog : BlogInput)
    (options : Option PublishOptions) (ts : Nat) (blogs : List BlogInput)
    (prTitle : String) (bts : Nat) :
    (∀ c ∈ (publishBlog env cp blog options ts).2, isDeleteBranchCall c = false) ∧
    (∀ c ∈ (publishMultipleBlogsInSinglePR env cp blogs prTitle options bts).2,
      isDeleteBranchCall c = false) ∧
    (∀ cb e, env.createBranch (publishBranchName blog ts) (resolveBaseBranch options) = .ok cb →
      env.createOrUpdateFile (cp ++ "/" ++ (generateSlug blog.title ++ ".md"))
        (convertJsonToMarkdown blog)
        ("feat: Add new blog post \"" ++ blog.title ++ "\"")
        (publishBranchName blog ts) = .error e →
      (publishBlog env cp blog options ts).1.success = false ∧
      (publishBlog env cp blog options ts).1.error =
        some ("Failed to create/update file: " ++ e)) ∧
    (∀ cb e, env.createBranch (publishBranchName blog ts) (resolveBaseBranch options) = .ok cb →
      env.createOrUpdateFile (cp ++ "/" ++ (generateSlug blog.title ++ ".md"))
        (convertJsonToMarkdown blog)
        ("feat: Add new blog post \"" ++ blog.title ++ "\"")
        (publishBranchName blog ts) = .ok () →
      env.createPullRequest ("📝 New Blog Post: " ++ blog.title)
        (generatePRBody blog (generateSlug blog.title))
        (publishBranchName blog ts) (resolveBaseBranch options) = .error e →
      (publishBlog env cp blog options ts).1.success = false ∧
      (publishBlog env cp blog options ts).1.error =
        some ("Failed to create pull request: " ++ e)) := by
  refine ⟨?_, ?_, ?_, ?_⟩
  · intro c hc
    rcases publishBlog_trace_mem env cp blog options ts c hc with h | h | h | h
    · subst h; rfl
    · subst h; rfl
    · subst h; rfl
    · exact (stageCall_classification c h).1
  · intro c hc
    rcases (singlePR_spec env cp blogs prTitle options bts).1 c hc with h | h | h | h
    · subst h; rfl
    · exact (cmfCall_classification c h).1
    · exact prCall_not_deleteBranch c h
    · exact (stageCall_classification c h).1
  · intro cb e hb hf
    simp [publishBlog, hb, hf, mkFailResult]
  · intro cb e hb hf hpc
    simp [publishBlog, hb, hf, hpc, mkFailResult]

/-- An oracle whose file-creation call always fails. -/
def envFailFile : Oracle :=
  { okOracle with createOrUpdateFile := fun _ _ _ _ => .error "file-boom" }

/-- Witness for C5. -/
theorem C5_no_rollback_witness :
    isDeleteBranchCall (publishCB blogA none 1) = false ∧
    ((publishBlog envFailFile "content/posts" blogA none 1).1.success = false ∧
     (publishBlog envFailFile "content/posts" blogA none 1).1.error =
       some ("Failed to create/update file: " ++ "file-boom")) := by
  refine ⟨?_, ?_⟩
  · exact (C5_no_rollback okOracle "content/posts" blogA none 1 [] "" 2).1
      (publishCB blogA none 1) (by decide)
  · exact (C5_no_rollback envFailFile "content/posts" blogA none 1 [] "" 2).2.2.1
      { branchName := "blog/a-1", sha := "base-sha" } "file-boom" rfl rfl


/-- Distinct timestamps give distinct `publishBlog` branch names. -/
theorem publishBranchName_inj_ts (blog : BlogInput) (ts1 ts2 : Nat)
    (h : publishBranchName blog ts1 = publishBranchName blog ts2) : ts1 = ts2 := by
  have hd := congrArg String.data h
  simp only [publishBranchName, String.data_append, List.append_assoc] at hd
  have h1 := List.append_cancel_left hd
  have h2 := List.append_cancel_left h1
  have h3 := List.append_cancel_left h2
  exact natRepr_injective (String.ext h3)

def isListFilesCall : GHCall → Bool
  | .listFiles _ _ => true
  | _ => false

/-- C6: two submissions of the same title (one-PR-per-post mode) at distinct
clock readings create branches with distinct names, and neither invocation
performs any pre-publish existence or dedup check. -/
theorem C6_distinct_branches (env1 env2 : Oracle) (cp1 cp2 : String) (blog : BlogInput)
    (o1 o2 : Option PublishOptions) (ts1 ts2 : Nat) (hts : ts1 ≠ ts2) :
    (∀ b base, GHCall.createBranch b base ∈ (publishBlog env1 cp1 blog o1 ts1).2 →
      ∀ b2 base2, GHCall.createBranch b2 base2 ∈ (publishBlog env2 cp2 blog o2 ts2).2 →
        b ≠ b2) ∧
    (∀ c ∈ (publishBlog env1 cp1 blog o1 ts1).2,
      isFileExistsCall c = false ∧ isListFilesCall c = false) := by
  constructor
  · intro b base hmem b2 base2 hmem2 heq
    have h1 : b = publishBranchName blog ts1 := by
      rcases publishBlog_trace_mem env1 cp1 blog o1 ts1 _ hmem with h | h | h | h
      · rw [publishCB] at h
        injection h with h1 h2
      · rw [publishCF] at h
        exact absurd h (by simp)
      · rw [publishCP] at h
        exact absurd h (by simp)
      · exact absurd h (by simp [isStageCall])
    have h2 : b2 = publishBranchName blog ts2 := by
      rcases publishBlog_trace_mem env2 cp2 blog o2 ts2 _ hmem2 with h | h | h | h
      · rw [publishCB] at h
        injection h with h1 h2
      · rw [publishCF] at h
        exact absurd h (by simp)
      · rw [publishCP] at h
        exact absurd h (by simp)
      · exact absurd h (by simp [isStageCall])
    rw [h1, h2] at heq
    exact hts (publishBranchName_inj_ts blog ts1 ts2 heq)
  · intro c hc
    rcases publishBlog_trace_mem env1 cp1 blog o1 ts1 c hc with h | h | h | h
    · subst h; exact ⟨rfl, rfl⟩
    · subst h; exact ⟨rfl, rfl⟩
    · subst h; exact ⟨rfl, rfl⟩
    · exact ⟨(stageCall_classification c h).2.1, by
        cases c <;> simp_all [isStageCall, isListFilesCall]⟩

/-- Witness for C6. -/
theorem C6_distinct_branches_witness :
    ("blog/a-1" : String) ≠ "blog/a-2" ∧
    isFileExistsCall (publishCB blogA none 1) = false := by
  have h := C6_distinct_branches okOracle okOracle "content/posts" "content/posts"
    blogA none none 1 2 (by decide)
  exact ⟨h.1 "blog/a-1" "main" (by decide) "blog/a-2" "main" (by decide),
    (h.2 (publishCB blogA none 1) (by decide)).1⟩

/-- An oracle whose merge call always fails (everything else succeeds). -/
def envFailMerge : Oracle :=
  { okOracle with mergePullRequest := fun _ _ _ => .error "merge-boom" }

/-- Auto-merge options. -/
def optsAM : PublishOptions := { autoMerge := some true }

/-- C9 counterexample: when the auto-merge provider call fails, `publishBlog`
still returns `success = true` with no error string (the failure is caught
and only logged), so not every provider-call failure yields a failure
result. -/
theorem C9_automerge_counterexample :
    (publishBlog envFailMerge "content/posts" blogA (some optsAM) 1).1.success = true ∧
    (publishBlog envFailMerge "content/posts" blogA (some optsAM) 1).1.error = none ∧
    (publishBlog envFailMerge "content/posts" blogA (some optsAM) 1).1.merged = some false ∧
    GHCall.mergePullRequest 7 "Auto-merge: a" "Automatically merged blog post: a" ∈
      (publishBlog envFailMerge "content/posts" blogA (some optsAM) 1).2 ∧
    callOk envFailMerge
      (GHCall.mergePullRequest 7 "Auto-merge: a" "Automatically merged blog post: a") = false := by
  decide

/-- C9 (amended): `publishBlog` and `publishMultipleBlogsInSinglePR` are
total — the caller always receives a `PublishResult` — and whenever the
returned result has `success = false` it carries the fixed failure message
and an error string; on `success = true`, every non-merge provider call in
the trace succeeded (a failing auto-merge call alone is caught and the
result still reports success). -/
theorem C9_result_reporting_amended (env : Oracle) (cp : String) (blog : BlogInput)
    (options : Option PublishOptions) (ts : Nat) (blogs : List BlogInput)
    (prTitle : String) (bts : Nat) :
    ((publishBlog env cp blog options ts).1.success = false →
      (publishBlog env cp blog options ts).1.message = "Failed to publish blog post" ∧
      (publishBlog env cp blog options ts).1.error.isSome = true) ∧
    ((publishBlog env cp blog options ts).1.success = true →
      ∀ c ∈ (publishBlog env cp blog options ts).2, isMergeCall c = false →
        callOk env c = true) ∧
    ((publishMultipleBlogsInSinglePR env cp blogs prTitle options bts).1.success = false →
      (publishMultipleBlogsInSinglePR env cp blogs prTitle options bts).1.message =
        "Failed to publish batch of blog posts" ∧
      (publishMultipleBlogsInSinglePR env cp blogs prTitle options bts).1.error.isSome = true) ∧
    ((publishMultipleBlogsInSinglePR env cp blogs prTitle options bts).1.success = true →
      ∀ c ∈ (publishMultipleBlogsInSinglePR env cp blogs prTitle options bts).2,
        isMergeCall c = false → callOk env c = true) := by
  have hflow := publishBlog_flow_spec env cp blog options ts
  have hbatch := singlePR_spec env cp blogs prTitle options bts
  exact ⟨hflow.2.1, hflow.2.2, hbatch.2.1, hbatch.2.2.1⟩

/-- Witness for C9. -/
theorem C9_result_reporting_amended_witness :
    ((publishBlog envFailFile "content/posts" blogA none 1).1.message =
      "Failed to publish blog post" ∧
     (publishBlog envFailFile "content/posts" blogA none 1).1.error.isSome = true) ∧
    callOk okOracle (publishCB blogA none 1) = true := by
  refine ⟨?_, ?_⟩
  · exact (C9_result_reporting_amended envFailFile "content/posts" blogA none 1 [] "" 2).1
      (by decide)
  · exact (C9_result_reporting_amended okOracle "content/posts" blogA none 1 [] "" 2).2.1
      (by decide) (publishCB blogA none 1) (by decide) (by decide)
